import Mathlib

/-!
# Drift-analysis CLI: shallow embedding and verification

This file embeds the baseline-driven drift-detection core of the
`drift-analysis-cli` repository in Lean 4 and proves (or refutes) the frozen
claims about it.

Embedded components (Go source location in comments above each definition):
* the schema object validator `ValidateSchemaAgainstBaseline`
  (`pkg/gcp/sql`, schema validation file),
* the Cloud SQL field drift comparator `analyzeInstance` with its helpers
  `compareDatabaseFlags`, `compareSettings`, `compareAuthorizedNetworks`,
  `checkRequiredDatabases` (`pkg/gcp/sql`, analyzer file),
* the GKE version comparator `compareVersion` / `extractMinorVersion`
  (`pkg/gcp/gke/analyzer.go`),
* the multi-baseline matcher `analyzeMultipleBaselines`,
  `filterInstancesByLabels`, `matchesLabels` (`pkg/gcp/sql/command.go`),
* report severity tallying `CountBySeverity` (`pkg/report/common.go`) and the
  compliance-rate expressions of the text report renderers.

Conventions of the embedding:
* Go `map[string]string` values become association lists
  (`List (String × String)`) with first-match lookup; a nil-able map becomes
  `Option (List (String × String))` when the source tests the map for nil.
  Go's map iteration order is unspecified; where the source iterates a map we
  fix the (irrelevant for the proved claims) order to list order of first
  occurrences.
* Go pointer fields checked for nil become `Option`; pointer fields the
  source dereferences unconditionally stay plain fields (a nil there is a
  runtime panic in Go, i.e. outside the function's defined domain).
* `fmt.Sprintf` renderings are reproduced exactly for the verbs the source
  uses on the embedded data (`%s`, `%d` on int64, `%v` on bool and []string).
* Machine integers (Go `int`, `int64`) are embedded as `Int`; none of the
  embedded code can overflow 64 bits on inputs the claims quantify over, and
  no arithmetic other than subtraction/comparison occurs.
-/

namespace DriftCli

/-- Go `fmt.Sprintf("%v", b)` for a bool. -/
def goBool (b : Bool) : String := if b then "true" else "false"

/-- Go `fmt.Sprintf("%v", xs)` for a `[]string`. -/
def goStrSlice (xs : List String) : String :=
  "[" ++ String.intercalate " " xs ++ "]"

/-- First-match lookup in an association list, i.e. Go `m[k]` with the
`value, ok` idiom for a `map[string]string`. -/
def lookupStr (m : List (String × String)) (k : String) : Option String :=
  (m.find? (fun p => p.1 == k)).map (·.2)

/-- `pkg/report/common.go`: `Drift` — a single configuration difference from
the baseline. -/
structure Drift where
  field    : String
  expected : String
  actual   : String
  severity : String
deriving Repr, DecidableEq

/-! ## Schema data model (database inspector types) -/

/-- `TableInfo` (schema inspector): table metadata.  The fields never read by
the embedded validator (`RowCount`, `SizeBytes`, `Columns`, `Constraints`,
`Indexes`) are omitted. -/
structure TableInfo where
  schema : String
  name   : String
  owner  : String
deriving Repr, DecidableEq

/-- `ViewInfo`: view metadata (`Definition` omitted, never read). -/
structure ViewInfo where
  schema : String
  name   : String
  owner  : String
deriving Repr, DecidableEq

/-- `SequenceInfo`: sequence metadata (numeric bounds omitted, never read). -/
structure SequenceInfo where
  schema : String
  name   : String
  owner  : String
deriving Repr, DecidableEq

/-- `FunctionInfo`: function metadata (`Language`, `ReturnType`, `Definition`
omitted, never read by the validator). -/
structure FunctionInfo where
  schema    : String
  name      : String
  owner     : String
  arguments : String
deriving Repr, DecidableEq

/-- `ProcedureInfo`: procedure metadata (`Language`, `Definition` omitted). -/
structure ProcedureInfo where
  schema    : String
  name      : String
  owner     : String
  arguments : String
deriving Repr, DecidableEq

/-- `Extension`: a PostgreSQL extension (`Version`, `Schema` never read by the
validator beyond the name). -/
structure Extension where
  name    : String
  version : String
deriving Repr, DecidableEq

/-- `Role`: a PostgreSQL role; the validator only reads the list length, so
only the name is kept. -/
structure Role where
  name : String
deriving Repr, DecidableEq

/-- `DatabaseSchema`: detailed schema information of one database
(`Encoding`/`Collation` omitted, never read by the validator). -/
structure DatabaseSchema where
  databaseName : String
  owner        : String
  roles        : List Role
  tables       : List TableInfo
  views        : List ViewInfo
  sequences    : List SequenceInfo
  functions    : List FunctionInfo
  procedures   : List ProcedureInfo
  extensions   : List Extension
deriving Repr, DecidableEq

/-- `SchemaBaseline`: expected-schema specification.  The struct declaration
itself is not among the provided source files; its field set is reconstructed
exactly from its uses in `ValidateSchemaAgainstBaseline` and the validator
tests (`*int` expected counts, string expected owners with `""` = unset,
string-slice required/forbidden lists, nil-able `map[string]string` exception
maps). -/
structure SchemaBaseline where
  expectedTables          : Option Int := none
  expectedViews           : Option Int := none
  expectedRoles           : Option Int := none
  expectedExtensions      : Option Int := none
  expectedSequences       : Option Int := none
  expectedFunctions       : Option Int := none
  expectedProcedures      : Option Int := none
  requiredTables          : List String := []
  requiredViews           : List String := []
  requiredExtensions      : List String := []
  forbiddenTables         : List String := []
  expectedDatabaseOwner   : String := ""
  expectedTableOwner      : String := ""
  expectedViewOwner       : String := ""
  expectedSequenceOwner   : String := ""
  expectedFunctionOwner   : String := ""
  expectedProcedureOwner  : String := ""
  allowedOwners           : List String := []
  forbiddenOwners         : List String := []
  tableOwnerExceptions    : Option (List (String × String)) := none
  viewOwnerExceptions     : Option (List (String × String)) := none
  sequenceOwnerExceptions : Option (List (String × String)) := none
  functionOwnerExceptions : Option (List (String × String)) := none
  procedureOwnerExceptions : Option (List (String × String)) := none
deriving Repr, DecidableEq

/-- `OwnershipViolation`: an object with incorrect ownership; `violationType`
is one of `"wrong_owner"`, `"forbidden_owner"`, `"database_owner"`. -/
structure OwnershipViolation where
  objectType    : String
  objectName    : String
  actualOwner   : String
  expectedOwner : String
  violationType : String
deriving Repr, DecidableEq

/-- `CountMismatch`: expected vs actual object count. -/
structure CountMismatch where
  objectType : String
  expected   : Int
  actual     : Int
deriving Repr, DecidableEq

/-- `MissingObject`: a required object that does not exist. -/
structure MissingObject where
  objectType : String
  name       : String
deriving Repr, DecidableEq

/-- `ForbiddenObject`: an object that should not exist but does. -/
structure ForbiddenObject where
  objectType : String
  name       : String
deriving Repr, DecidableEq

/-- `SchemaValidationResult`: outcome of schema baseline validation. -/
structure SchemaValidationResult where
  hasDrift            : Bool
  countMismatches     : List CountMismatch
  missingObjects      : List MissingObject
  forbiddenObjects    : List ForbiddenObject
  ownershipViolations : List OwnershipViolation
deriving Repr, DecidableEq

/-! ## Schema object validator (`ValidateSchemaAgainstBaseline`)

The Go function is one long routine; it is embedded here as one small
definition per source block, concatenated in source order at the end. -/

/-- One expected-count check (the source repeats this block per object type):
`baseline.ExpectedX != nil && *baseline.ExpectedX != len(schema.Xs)`. -/
def countCheck (objectType : String) (expected : Option Int) (actualLen : Nat) :
    List CountMismatch :=
  match expected with
  | none => []
  | some e => if e ≠ (actualLen : Int) then [⟨objectType, e, actualLen⟩] else []

/-- All seven expected-count checks, in source order. -/
def countMismatchChecks (schema : DatabaseSchema) (b : SchemaBaseline) :
    List CountMismatch :=
  countCheck "Tables" b.expectedTables schema.tables.length
    ++ countCheck "Views" b.expectedViews schema.views.length
    ++ countCheck "Roles" b.expectedRoles schema.roles.length
    ++ countCheck "Extensions" b.expectedExtensions schema.extensions.length
    ++ countCheck "Sequences" b.expectedSequences schema.sequences.length
    ++ countCheck "Functions" b.expectedFunctions schema.functions.length
    ++ countCheck "Procedures" b.expectedProcedures schema.procedures.length

/-- Schema-qualified table name, `fmt.Sprintf("%s.%s", table.Schema, table.Name)`. -/
def qualifiedTableName (t : TableInfo) : String := t.schema ++ "." ++ t.name

/-- Schema-qualified view name. -/
def qualifiedViewName (v : ViewInfo) : String := v.schema ++ "." ++ v.name

/-- Schema-qualified sequence name. -/
def qualifiedSeqName (s : SequenceInfo) : String := s.schema ++ "." ++ s.name

/-- Qualified function name including the argument list,
`fmt.Sprintf("%s.%s(%s)", fn.Schema, fn.Name, fn.Arguments)`. -/
def qualifiedFunctionName (f : FunctionInfo) : String :=
  f.schema ++ "." ++ f.name ++ "(" ++ f.arguments ++ ")"

/-- Qualified procedure name including the argument list. -/
def qualifiedProcedureName (p : ProcedureInfo) : String :=
  p.schema ++ "." ++ p.name ++ "(" ++ p.arguments ++ ")"

/-- Membership in the source's `tableMap`, which registers every table under
both its schema-qualified name and its bare name. -/
def tableMapHas (schema : DatabaseSchema) (key : String) : Prop :=
  ∃ t ∈ schema.tables, qualifiedTableName t = key ∨ t.name = key

instance (schema : DatabaseSchema) (key : String) :
    Decidable (tableMapHas schema key) := by
  unfold tableMapHas; infer_instance

/-- Membership in the source's `viewMap` (qualified and bare names). -/
def viewMapHas (schema : DatabaseSchema) (key : String) : Prop :=
  ∃ v ∈ schema.views, qualifiedViewName v = key ∨ v.name = key

instance (schema : DatabaseSchema) (key : String) :
    Decidable (viewMapHas schema key) := by
  unfold viewMapHas; infer_instance

/-- Membership in the source's `extMap` (bare extension names only). -/
def extMapHas (schema : DatabaseSchema) (key : String) : Prop :=
  ∃ e ∈ schema.extensions, e.name = key

instance (schema : DatabaseSchema) (key : String) :
    Decidable (extMapHas schema key) := by
  unfold extMapHas; infer_instance

/-- Required-tables pass: each required name absent from `tableMap` yields a
`MissingObject`. -/
def requiredTableChecks (schema : DatabaseSchema) (b : SchemaBaseline) :
    List MissingObject :=
  b.requiredTables.foldr
    (fun req acc =>
      (if ¬ tableMapHas schema req then [⟨"Table", req⟩] else []) ++ acc) []

/-- Required-views pass. -/
def requiredViewChecks (schema : DatabaseSchema) (b : SchemaBaseline) :
    List MissingObject :=
  b.requiredViews.foldr
    (fun req acc =>
      (if ¬ viewMapHas schema req then [⟨"View", req⟩] else []) ++ acc) []

/-- Required-extensions pass. -/
def requiredExtensionChecks (schema : DatabaseSchema) (b : SchemaBaseline) :
    List MissingObject :=
  b.requiredExtensions.foldr
    (fun req acc =>
      (if ¬ extMapHas schema req then [⟨"Extension", req⟩] else []) ++ acc) []

/-- Forbidden-tables pass: a forbidden name present in `tableMap` yields a
`ForbiddenObject`. -/
def forbiddenTableChecks (schema : DatabaseSchema) (b : SchemaBaseline) :
    List ForbiddenObject :=
  b.forbiddenTables.foldr
    (fun forb acc =>
      (if tableMapHas schema forb then [⟨"Table", forb⟩] else []) ++ acc) []

/-- Database-level ownership check: the schema's own owner against
`ExpectedDatabaseOwner` (violation kind `database_owner`). -/
def databaseOwnerCheck (schema : DatabaseSchema) (b : SchemaBaseline) :
    List OwnershipViolation :=
  if b.expectedDatabaseOwner ≠ "" ∧ schema.owner ≠ b.expectedDatabaseOwner then
    [⟨"Database", schema.databaseName, schema.owner, b.expectedDatabaseOwner,
      "database_owner"⟩]
  else []

/-- The category-wide fallback checks shared by every object category: the
expected-owner comparison followed by the allowed-owners whitelist check.
In the source these are the last two `if` blocks of each per-object loop
body; they are reached only when neither the forbidden-owner branch nor an
exception-map hit executed `continue`. -/
def ownerFallbackChecks (objectType objectName owner expectedOwner : String)
    (allowedOwners : List String) : List OwnershipViolation :=
  (if expectedOwner ≠ "" ∧ owner ≠ expectedOwner then
    [⟨objectType, objectName, owner, expectedOwner, "wrong_owner"⟩]
  else [])
  ++ (if allowedOwners ≠ [] ∧ owner ∉ allowedOwners then
    [⟨objectType, objectName, owner, "one of: " ++ goStrSlice allowedOwners,
      "wrong_owner"⟩]
  else [])

/-- Loop body of the table-ownership pass: forbidden-owner check, then the
exception map by qualified and bare name (each hit ends the object's checks),
then the category-wide fallback checks. -/
def tableOwnerCheck (b : SchemaBaseline) (t : TableInfo) :
    List OwnershipViolation :=
  let tableName := qualifiedTableName t
  if t.owner ∈ b.forbiddenOwners then
    [⟨"Table", tableName, t.owner, "(any non-forbidden owner)",
      "forbidden_owner"⟩]
  else
    let fallback := ownerFallbackChecks "Table" tableName t.owner
      b.expectedTableOwner b.allowedOwners
    match b.tableOwnerExceptions with
    | none => fallback
    | some exceptions =>
      match lookupStr exceptions tableName with
      | some expectedOwner =>
        if t.owner ≠ expectedOwner then
          [⟨"Table", tableName, t.owner, expectedOwner, "wrong_owner"⟩]
        else []
      | none =>
        match lookupStr exceptions t.name with
        | some expectedOwner =>
          if t.owner ≠ expectedOwner then
            [⟨"Table", tableName, t.owner, expectedOwner, "wrong_owner"⟩]
          else []
        | none => fallback

/-- Loop body of the view-ownership pass (same shape as tables: the exception
map is consulted by qualified name and then by bare name). -/
def viewOwnerCheck (b : SchemaBaseline) (v : ViewInfo) :
    List OwnershipViolation :=
  let viewName := qualifiedViewName v
  if v.owner ∈ b.forbiddenOwners then
    [⟨"View", viewName, v.owner, "(any non-forbidden owner)",
      "forbidden_owner"⟩]
  else
    let fallback := ownerFallbackChecks "View" viewName v.owner
      b.expectedViewOwner b.allowedOwners
    match b.viewOwnerExceptions with
    | none => fallback
    | some exceptions =>
      match lookupStr exceptions viewName with
      | some expectedOwner =>
        if v.owner ≠ expectedOwner then
          [⟨"View", viewName, v.owner, expectedOwner, "wrong_owner"⟩]
        else []
      | none =>
        match lookupStr exceptions v.name with
        | some expectedOwner =>
          if v.owner ≠ expectedOwner then
            [⟨"View", viewName, v.owner, expectedOwner, "wrong_owner"⟩]
          else []
        | none => fallback

/-- Loop body of the sequence-ownership pass.  Unlike tables and views, the
source consults `SequenceOwnerExceptions` by the qualified name only — there
is no bare-name fallback lookup. -/
def sequenceOwnerCheck (b : SchemaBaseline) (s : SequenceInfo) :
    List OwnershipViolation :=
  let seqName := qualifiedSeqName s
  if s.owner ∈ b.forbiddenOwners then
    [⟨"Sequence", seqName, s.owner, "(any non-forbidden owner)",
      "forbidden_owner"⟩]
  else
    let fallback := ownerFallbackChecks "Sequence" seqName s.owner
      b.expectedSequenceOwner b.allowedOwners
    match b.sequenceOwnerExceptions with
    | none => fallback
    | some exceptions =>
      match lookupStr exceptions seqName with
      | some expectedOwner =>
        if s.owner ≠ expectedOwner then
          [⟨"Sequence", seqName, s.owner, expectedOwner, "wrong_owner"⟩]
        else []
      | none => fallback

/-- Loop body of the function-ownership pass.  The qualified name includes
the argument list, and the exception map is consulted by that qualified name
only (no bare-name fallback). -/
def functionOwnerCheck (b : SchemaBaseline) (f : FunctionInfo) :
    List OwnershipViolation :=
  let fnName := qualifiedFunctionName f
  if f.owner ∈ b.forbiddenOwners then
    [⟨"Function", fnName, f.owner, "(any non-forbidden owner)",
      "forbidden_owner"⟩]
  else
    let fallback := ownerFallbackChecks "Function" fnName f.owner
      b.expectedFunctionOwner b.allowedOwners
    match b.functionOwnerExceptions with
    | none => fallback
    | some exceptions =>
      match lookupStr exceptions fnName with
      | some expectedOwner =>
        if f.owner ≠ expectedOwner then
          [⟨"Function", fnName, f.owner, expectedOwner, "wrong_owner"⟩]
        else []
      | none => fallback

/-- Loop body of the procedure-ownership pass (same shape as functions). -/
def procedureOwnerCheck (b : SchemaBaseline) (p : ProcedureInfo) :
    List OwnershipViolation :=
  let procName := qualifiedProcedureName p
  if p.owner ∈ b.forbiddenOwners then
    [⟨"Procedure", procName, p.owner, "(any non-forbidden owner)",
      "forbidden_owner"⟩]
  else
    let fallback := ownerFallbackChecks "Procedure" procName p.owner
      b.expectedProcedureOwner b.allowedOwners
    match b.procedureOwnerExceptions with
    | none => fallback
    | some exceptions =>
      match lookupStr exceptions procName with
      | some expectedOwner =>
        if p.owner ≠ expectedOwner then
          [⟨"Procedure", procName, p.owner, expectedOwner, "wrong_owner"⟩]
        else []
      | none => fallback

/-- `ValidateSchemaAgainstBaseline`: the four validation passes in source
order.  A nil baseline returns `HasDrift=false` with empty finding lists;
otherwise `HasDrift` is computed at the end as the disjunction of the four
lists being non-empty. -/
def ValidateSchemaAgainstBaseline (schema : DatabaseSchema)
    (baseline : Option SchemaBaseline) : SchemaValidationResult :=
  match baseline with
  | none => ⟨false, [], [], [], []⟩
  | some b =>
    let countMismatches := countMismatchChecks schema b
    let missingObjects := requiredTableChecks schema b
      ++ requiredViewChecks schema b ++ requiredExtensionChecks schema b
    let forbiddenObjects := forbiddenTableChecks schema b
    let ownershipViolations := databaseOwnerCheck schema b
      ++ (schema.tables.map (tableOwnerCheck b)).flatten
      ++ (schema.views.map (viewOwnerCheck b)).flatten
      ++ (schema.sequences.map (sequenceOwnerCheck b)).flatten
      ++ (schema.functions.map (functionOwnerCheck b)).flatten
      ++ (schema.procedures.map (procedureOwnerCheck b)).flatten
    { hasDrift := !countMismatches.isEmpty || !missingObjects.isEmpty
        || !forbiddenObjects.isEmpty || !ownershipViolations.isEmpty
      countMismatches := countMismatches
      missingObjects := missingObjects
      forbiddenObjects := forbiddenObjects
      ownershipViolations := ownershipViolations }

/-! ## Cloud SQL instance data model (`pkg/gcp/sql` analyzer) -/

/-- `InsightsConfig`: Query Insights configuration. -/
structure InsightsConfig where
  queryInsightsEnabled  : Bool
  queryPlansPerMinute   : Int
  queryStringLength     : Int
  recordApplicationTags : Bool
deriving Repr, DecidableEq

/-- `IPConfiguration`: network and security settings. -/
structure IPConfiguration where
  ipv4Enabled        : Bool
  privateNetworkID   : String
  requireSSL         : Bool
  authorizedNetworks : List String
deriving Repr, DecidableEq

/-- `Settings`: runtime and operational settings of a database instance.
`IPConfiguration` and `InsightsConfig` are nil-able pointers in Go and both
sides are nil-checked before comparison, hence `Option`. -/
structure Settings where
  availabilityType            : String
  backupEnabled               : Bool
  backupStartTime             : String
  backupRetentionDays         : Int
  pointInTimeRecovery         : Bool
  transactionLogRetentionDays : Int
  ipConfiguration             : Option IPConfiguration
  locationPreference          : String
  dataDiskSizeGb              : Int
  pricingPlan                 : String
  replicationType             : String
  insightsConfig              : Option InsightsConfig
deriving Repr, DecidableEq

/-- `DatabaseConfig`: configuration parameters of a PostgreSQL instance.
`Settings` is a nil-able pointer in Go (a parsed baseline may omit it). -/
structure DatabaseConfig where
  databaseVersion   : String
  tier              : String
  databaseFlags     : List (String × String)
  settings          : Option Settings
  diskSize          : Int
  diskType          : String
  diskAutoresize    : Bool
  maintenanceDenied : List String
  requiredDatabases : List String
deriving Repr, DecidableEq

/-- `MaintenanceWindow`. -/
structure MaintenanceWindow where
  day         : Int
  hour        : Int
  updateTrack : String
deriving Repr, DecidableEq

/-- `DatabaseInstance`: one discovered Cloud SQL instance.  `Labels` is a
nil-able `map[string]string` (the source nil-checks it in `matchesLabels`). -/
structure DatabaseInstance where
  project           : String
  name              : String
  state             : String
  region            : String
  config            : DatabaseConfig
  maintenanceWindow : Option MaintenanceWindow
  labels            : Option (List (String × String))
  databases         : List String
deriving Repr, DecidableEq

/-- `InstanceDrift`: per-instance analysis result. -/
structure InstanceDrift where
  project           : String
  name              : String
  region            : String
  state             : String
  labels            : Option (List (String × String))
  databases         : List String
  maintenanceWindow : Option MaintenanceWindow
  drifts            : List Drift
  recommendations   : List String
deriving Repr, DecidableEq

/-! ## Field drift comparator (`analyzeInstance` and helpers)

The Go routine appends to `drift.Drifts` block by block; each `if` block is
one definition here, concatenated in source order. -/

/-- `analyzeInstance` database-version block: a full-string comparison,
guarded by the baseline field being set. -/
def versionCheck (cfg b : DatabaseConfig) : List Drift :=
  if b.databaseVersion ≠ "" ∧ cfg.databaseVersion ≠ b.databaseVersion then
    [⟨"database_version", b.databaseVersion, cfg.databaseVersion, "medium"⟩]
  else []

/-- `analyzeInstance` tier block. -/
def tierCheck (cfg b : DatabaseConfig) : List Drift :=
  if b.tier ≠ "" ∧ cfg.tier ≠ b.tier then
    [⟨"tier", b.tier, cfg.tier, "high"⟩]
  else []

/-- `analyzeInstance` disk-type block. -/
def diskTypeCheck (cfg b : DatabaseConfig) : List Drift :=
  if b.diskType ≠ "" ∧ cfg.diskType ≠ b.diskType then
    [⟨"disk_type", b.diskType, cfg.diskType, "medium"⟩]
  else []

/-- `analyzeInstance` disk-size block (`DiskSize > 0` is the set-indicator). -/
def diskSizeCheck (cfg b : DatabaseConfig) : List Drift :=
  if b.diskSize > 0 ∧ cfg.diskSize ≠ b.diskSize then
    [⟨"disk_size_gb", toString b.diskSize, toString cfg.diskSize, "medium"⟩]
  else []

/-- `analyzeInstance` disk-autoresize block: checked only when the baseline
specifies a disk type. -/
def diskAutoresizeCheck (cfg b : DatabaseConfig) : List Drift :=
  if b.diskType ≠ "" ∧ cfg.diskAutoresize ≠ b.diskAutoresize then
    [⟨"disk_autoresize", goBool b.diskAutoresize, goBool cfg.diskAutoresize,
      "low"⟩]
  else []

/-- `compareDatabaseFlags`: per-key comparison of the flag maps.  Baseline
keys missing from the actual map or value-mismatched are medium; actual keys
absent from the baseline map are low ("extra"). -/
def compareDatabaseFlags (cfg b : DatabaseConfig) : List Drift :=
  (b.databaseFlags.map (fun kv =>
    match lookupStr cfg.databaseFlags kv.1 with
    | none => [⟨"database_flags." ++ kv.1, kv.2, "not set", "medium"⟩]
    | some actualValue =>
      if actualValue ≠ kv.2 then
        [⟨"database_flags." ++ kv.1, kv.2, actualValue, "medium"⟩]
      else [])).flatten
  ++ (cfg.databaseFlags.map (fun kv =>
    match lookupStr b.databaseFlags kv.1 with
    | some _ => []
    | none => [⟨"database_flags." ++ kv.1, "not set", kv.2, "low"⟩])).flatten

/-- `compareAuthorizedNetworks`: two-set comparison of network lists.  The
source materialises both lists as `map[string]bool` sets before diffing, so
duplicates collapse; list order stands in for Go's unspecified map order. -/
def compareAuthorizedNetworks (baseline actual : IPConfiguration) :
    List Drift :=
  let requiredNets := baseline.authorizedNetworks.eraseDups.filter
    (fun n => !(actual.authorizedNetworks.contains n))
  let extraNets := actual.authorizedNetworks.eraseDups.filter
    (fun n => !(baseline.authorizedNetworks.contains n))
  (if requiredNets ≠ [] then
    [⟨"settings.ip_configuration.authorized_networks",
      "Required: " ++ goStrSlice requiredNets,
      goStrSlice actual.authorizedNetworks, "high"⟩]
  else [])
  ++ (if extraNets ≠ [] then
    [⟨"settings.ip_configuration.authorized_networks",
      goStrSlice baseline.authorizedNetworks,
      "Extra: " ++ goStrSlice extraNets, "medium"⟩]
  else [])

/-- Body of `compareSettings` once both pointers are non-nil, block by block
in source order. -/
def compareSettingsChecks (actual baseline : Settings) : List Drift :=
  (if baseline.availabilityType ≠ "" ∧
      actual.availabilityType ≠ baseline.availabilityType then
    [⟨"settings.availability_type", baseline.availabilityType,
      actual.availabilityType, "high"⟩]
  else [])
  ++ (if actual.backupEnabled ≠ baseline.backupEnabled then
    [⟨"settings.backup_enabled", goBool baseline.backupEnabled,
      goBool actual.backupEnabled, "critical"⟩]
  else [])
  ++ (if actual.pointInTimeRecovery ≠ baseline.pointInTimeRecovery then
    [⟨"settings.point_in_time_recovery", goBool baseline.pointInTimeRecovery,
      goBool actual.pointInTimeRecovery, "high"⟩]
  else [])
  ++ (if baseline.backupRetentionDays > 0 ∧
      actual.backupRetentionDays ≠ baseline.backupRetentionDays then
    [⟨"settings.backup_retention_days", toString baseline.backupRetentionDays,
      toString actual.backupRetentionDays, "medium"⟩]
  else [])
  ++ (if baseline.transactionLogRetentionDays > 0 ∧
      actual.transactionLogRetentionDays ≠
        baseline.transactionLogRetentionDays then
    [⟨"settings.transaction_log_retention_days",
      toString baseline.transactionLogRetentionDays,
      toString actual.transactionLogRetentionDays, "medium"⟩]
  else [])
  ++ (if baseline.pricingPlan ≠ "" ∧
      actual.pricingPlan ≠ baseline.pricingPlan then
    [⟨"settings.pricing_plan", baseline.pricingPlan, actual.pricingPlan,
      "low"⟩]
  else [])
  ++ (if baseline.replicationType ≠ "" ∧
      actual.replicationType ≠ baseline.replicationType then
    [⟨"settings.replication_type", baseline.replicationType,
      actual.replicationType, "medium"⟩]
  else [])
  ++ (if baseline.backupStartTime ≠ "" ∧
      actual.backupStartTime ≠ baseline.backupStartTime then
    [⟨"settings.backup_start_time", baseline.backupStartTime,
      actual.backupStartTime, "low"⟩]
  else [])
  ++ (match baseline.ipConfiguration, actual.ipConfiguration with
    | some bip, some aip =>
      (if aip.ipv4Enabled ≠ bip.ipv4Enabled then
        [⟨"settings.ip_configuration.ipv4_enabled", goBool bip.ipv4Enabled,
          goBool aip.ipv4Enabled, "medium"⟩]
      else [])
      ++ (if aip.requireSSL ≠ bip.requireSSL then
        [⟨"settings.ip_configuration.require_ssl", goBool bip.requireSSL,
          goBool aip.requireSSL, "critical"⟩]
      else [])
      ++ (if bip.authorizedNetworks ≠ [] then
        compareAuthorizedNetworks bip aip
      else [])
    | _, _ => [])
  ++ (match baseline.insightsConfig, actual.insightsConfig with
    | some bic, some aic =>
      (if aic.queryInsightsEnabled ≠ bic.queryInsightsEnabled then
        [⟨"settings.insights_config.query_insights_enabled",
          goBool bic.queryInsightsEnabled, goBool aic.queryInsightsEnabled,
          "low"⟩]
      else [])
      ++ (if bic.queryPlansPerMinute > 0 ∧
          aic.queryPlansPerMinute ≠ bic.queryPlansPerMinute then
        [⟨"settings.insights_config.query_plans_per_minute",
          toString bic.queryPlansPerMinute, toString aic.queryPlansPerMinute,
          "low"⟩]
      else [])
      ++ (if bic.queryStringLength > 0 ∧
          aic.queryStringLength ≠ bic.queryStringLength then
        [⟨"settings.insights_config.query_string_length",
          toString bic.queryStringLength, toString aic.queryStringLength,
          "low"⟩]
      else [])
    | _, _ => [])

/-- `compareSettings`: nil baseline settings are skipped entirely.  A nil
actual with a non-nil baseline dereferences nil in Go (a panic, outside the
defined domain); that branch constructs no drift. -/
def compareSettings : Option Settings → Option Settings → List Drift
  | _, none => []
  | none, some _ => []
  | some actual, some baseline => compareSettingsChecks actual baseline

/-- `checkRequiredDatabases`: missing required databases (high) and extra
databases (medium).  The source materialises the instance's databases as a
set before the extras scan, hence `eraseDups`. -/
def checkRequiredDatabases (inst : DatabaseInstance) (b : DatabaseConfig) :
    List Drift :=
  if b.requiredDatabases = [] then []
  else
    let missingDatabases := b.requiredDatabases.filter
      (fun db => !(inst.databases.contains db))
    let extraDatabases := inst.databases.eraseDups.filter
      (fun db => !(b.requiredDatabases.contains db))
    (if missingDatabases ≠ [] then
      [⟨"required_databases", goStrSlice b.requiredDatabases,
        "Missing: " ++ goStrSlice missingDatabases, "high"⟩]
    else [])
    ++ (if extraDatabases ≠ [] then
      [⟨"required_databases", goStrSlice b.requiredDatabases,
        "Extra: " ++ goStrSlice extraDatabases, "medium"⟩]
    else [])

/-- `getBestPracticeRecommendations` (used only when no baseline is
configured).  The source dereferences `inst.Config.Settings`; a nil there
panics in Go, so that branch yields nothing. -/
def getBestPracticeRecommendations (inst : DatabaseInstance) : List String :=
  match inst.config.settings with
  | none => []
  | some s =>
    (if !s.backupEnabled then ["CRITICAL: Enable automated backups"] else [])
    ++ (if !s.pointInTimeRecovery then
      ["HIGH: Enable point-in-time recovery for better RPO"] else [])
    ++ (if s.availabilityType ≠ "REGIONAL" then
      ["HIGH: Consider REGIONAL availability for production workloads"]
    else [])
    ++ (match s.ipConfiguration with
      | some ip =>
        (if !ip.requireSSL then
          ["CRITICAL: Enable SSL requirement for all connections"] else [])
        ++ (if ip.ipv4Enabled then
          ["MEDIUM: Consider using private IP instead of public IPv4"]
        else [])
      | none => [])
    ++ (if !inst.config.diskAutoresize then
      ["MEDIUM: Enable disk autoresize to prevent storage issues"] else [])
    ++ (if (match s.insightsConfig with
        | none => true
        | some ic => !ic.queryInsightsEnabled) then
      ["LOW: Enable Query Insights for better performance monitoring"]
    else [])
    ++ (if inst.config.databaseVersion < "POSTGRES_14" then
      ["MEDIUM: Consider upgrading to PostgreSQL 14+ for better performance and features"]
    else [])
    ++ (if inst.maintenanceWindow = none then
      ["LOW: Set a maintenance window for predictable updates"] else [])

/-- `getRecommendations`: advisory text derived from the drift list.  The Go
function also receives the instance and baseline but reads only
`drift.Drifts`. -/
def getRecommendations (drifts : List Drift) : List String :=
  if drifts = [] then ["No drift detected - instance matches baseline"]
  else
    (if drifts.any (fun d => d.severity == "critical") then
      ["CRITICAL drifts detected - immediate action required"] else [])
    ++ (drifts.map (fun d =>
      (if d.field == "settings.backup_enabled" && d.actual == "false" then
        ["Enable backups immediately to protect data"] else [])
      ++ (if d.field == "settings.ip_configuration.require_ssl"
            && d.actual == "false" then
        ["Enable SSL requirement to secure connections"] else [])
      ++ (if d.field == "tier" then
        ["Tier mismatch may affect performance and cost"] else []))).flatten

/-- The drift list built by `analyzeInstance` for a non-nil baseline: all
comparison blocks in source order. -/
def analyzeInstanceDrifts (inst : DatabaseInstance) (b : DatabaseConfig) :
    List Drift :=
  versionCheck inst.config b ++ tierCheck inst.config b
    ++ diskTypeCheck inst.config b ++ diskSizeCheck inst.config b
    ++ diskAutoresizeCheck inst.config b
    ++ compareDatabaseFlags inst.config b
    ++ compareSettings inst.config.settings b.settings
    ++ checkRequiredDatabases inst b

/-- `analyzeInstance`: compares one instance against an optional baseline.
A nil baseline yields no drifts and best-practice recommendations only. -/
def analyzeInstance (inst : DatabaseInstance)
    (baseline : Option DatabaseConfig) : InstanceDrift :=
  match baseline with
  | none =>
    ⟨inst.project, inst.name, inst.region, inst.state, inst.labels,
      inst.databases, inst.maintenanceWindow, [],
      getBestPracticeRecommendations inst⟩
  | some b =>
    let ds := analyzeInstanceDrifts inst b
    ⟨inst.project, inst.name, inst.region, inst.state, inst.labels,
      inst.databases, inst.maintenanceWindow, ds, getRecommendations ds⟩

/-! ## GKE version comparison (`pkg/gcp/gke/analyzer.go`) -/

/-- Index of the first `'.'` in a character list. -/
def findDotIdx : List Char → Option Nat
  | [] => none
  | c :: rest => if c = '.' then some 0 else (findDotIdx rest).map (· + 1)

/-- `extractMinorVersion`: truncates a full version string at the first dot
found from byte offset 2 onward (e.g. `"1.33.5-gke.1308000"` to `"1.33"`).
Go indexes bytes; version strings are ASCII, where bytes and characters
coincide. -/
def extractMinorVersion (version : String) : String :=
  if version.length < 4 then version
  else
    match findDotIdx (version.data.drop 2) with
    | some i => ⟨version.data.take (2 + i)⟩
    | none => version

/-- `compareVersion`: the GKE master-version check compares the truncated
major.minor projections of the two `MasterVersion` fields (the two string
arguments here), guarded by the baseline field being set. -/
def compareVersion (actualMasterVersion baselineMasterVersion : String) :
    List Drift :=
  if baselineMasterVersion ≠ "" then
    if extractMinorVersion actualMasterVersion
        ≠ extractMinorVersion baselineMasterVersion then
      [⟨"cluster.master_version", baselineMasterVersion, actualMasterVersion,
        "high"⟩]
    else []
  else []

/-! ## Baseline matcher and multi-baseline analysis (`pkg/gcp/sql/command.go`) -/

/-- `SQLBaseline`: a named baseline with optional label filters. -/
structure SQLBaseline where
  name         : String
  filterLabels : List (String × String)
  config       : Option DatabaseConfig
deriving Repr, DecidableEq

/-- `matchesLabels`: every filter key must exist in the instance's labels
with an equal value; a nil label map never matches. -/
def matchesLabels (inst : DatabaseInstance)
    (labels : List (String × String)) : Bool :=
  match inst.labels with
  | none => false
  | some instLabels =>
    labels.all (fun kv => lookupStr instLabels kv.1 == some kv.2)

/-- `filterInstancesByLabels`: an empty filter returns every instance
unfiltered; otherwise keep the instances matching all labels. -/
def filterInstancesByLabels (instances : List DatabaseInstance)
    (labels : List (String × String)) : List DatabaseInstance :=
  if labels = [] then instances
  else instances.filter (fun inst => matchesLabels inst labels)

/-- `DriftReport` (Cloud SQL): totals plus the per-instance records.  The
generation timestamp is not modelled. -/
structure DriftReport where
  totalInstances   : Nat
  driftedInstances : Nat
  instances        : List InstanceDrift
deriving Repr, DecidableEq

/-- Instance identity used by the multi-baseline dedup set:
`fmt.Sprintf("%s/%s", inst.Project, inst.Name)`. -/
def instanceKey (inst : DatabaseInstance) : String :=
  inst.project ++ "/" ++ inst.name

/-- The same key read back from a per-instance result record. -/
def driftKey (d : InstanceDrift) : String := d.project ++ "/" ++ d.name

/-- Loop state of `analyzeMultipleBaselines`: the `analyzedInstances` key
set, the accumulated report entries and the drifted counter. -/
structure MultiBaselineState where
  analyzed  : List String
  collected : List InstanceDrift
  drifted   : Nat
deriving Repr, DecidableEq

/-- Inner loop body of `analyzeMultipleBaselines`: skip an already-analyzed
key, otherwise analyze, append the entry, bump the drifted counter when the
entry has drifts, and mark the key analyzed. -/
def stepInstance (config : Option DatabaseConfig) (st : MultiBaselineState)
    (inst : DatabaseInstance) : MultiBaselineState :=
  if instanceKey inst ∈ st.analyzed then st
  else
    let d := analyzeInstance inst config
    ⟨st.analyzed ++ [instanceKey inst], st.collected ++ [d],
      st.drifted + (if d.drifts.isEmpty then 0 else 1)⟩

/-- The `filteredInstances` of one baseline pass: the label-filtered
instances when a filter is configured, all instances otherwise. -/
def filteredInstances (allInstances : List DatabaseInstance)
    (b : SQLBaseline) : List DatabaseInstance :=
  if b.filterLabels ≠ [] then
    filterInstancesByLabels allInstances b.filterLabels
  else allInstances

/-- One baseline pass: the inner loop over this baseline's filtered
instances. -/
def runBaseline (allInstances : List DatabaseInstance)
    (st : MultiBaselineState) (b : SQLBaseline) : MultiBaselineState :=
  (filteredInstances allInstances b).foldl (stepInstance b.config) st

/-- `analyzeMultipleBaselines`: every baseline pass in list order over a
shared analyzed-keys set; `TotalInstances` is the discovered count. -/
def analyzeMultipleBaselines (allInstances : List DatabaseInstance)
    (baselines : List SQLBaseline) : DriftReport :=
  let final := baselines.foldl (runBaseline allInstances) ⟨[], [], 0⟩
  ⟨allInstances.length, final.drifted, final.collected⟩

/-! ## Report aggregation and compliance rate -/

/-- `CountBySeverity` (`pkg/report/common.go`): tally drifts by severity with
a fold mirroring the source's switch; unknown severities are not counted. -/
def CountBySeverity (drifts : List Drift) : Nat × Nat × Nat × Nat :=
  drifts.foldl (fun acc d =>
    if d.severity = "critical" then (acc.1 + 1, acc.2.1, acc.2.2.1, acc.2.2.2)
    else if d.severity = "high" then (acc.1, acc.2.1 + 1, acc.2.2.1, acc.2.2.2)
    else if d.severity = "medium" then
      (acc.1, acc.2.1, acc.2.2.1 + 1, acc.2.2.2)
    else if d.severity = "low" then
      (acc.1, acc.2.1, acc.2.2.1, acc.2.2.2 + 1)
    else acc) (0, 0, 0, 0)

/-- Value of a Go float64 expression of the shape the report renderers use:
either a finite value (tracked at exact rational precision; the operands are
small integers, rounding is not modelled), an infinity, or NaN. -/
inductive GoFloat where
  | val (q : ℚ)
  | posInf
  | negInf
  | nan
deriving Repr, DecidableEq

/-- IEEE-754 division of finite operands as Go performs it:
a nonzero denominator divides; `x/0` is an infinity for nonzero `x` and NaN
for `0/0`. -/
def goDiv (a b : ℚ) : GoFloat :=
  if b ≠ 0 then .val (a / b)
  else if a > 0 then .posInf
  else if a < 0 then .negInf
  else .nan

/-- Multiplication by a positive finite constant (the literal `100`). -/
def goMulPos (x : GoFloat) (c : ℚ) : GoFloat :=
  match x with
  | .val q => .val (q * c)
  | .posInf => .posInf
  | .negInf => .negInf
  | .nan => .nan

/-- The compliance-rate expression of the Cloud SQL text reports
(`pkg/csql/report.go` `FormatText` and the `pkg/gcp/sql` report renderer):
`float64(TotalInstances-DriftedInstances)/float64(TotalInstances)*100`,
computed and rendered unconditionally — there is no zero-total guard. -/
def sqlComplianceRate (r : DriftReport) : GoFloat :=
  goMulPos
    (goDiv ((r.totalInstances : ℚ) - (r.driftedInstances : ℚ))
      (r.totalInstances : ℚ)) 100

/-- GKE `DriftReport` totals (`pkg/gke` report renderer); only the fields the
compliance-rate computation reads are modelled. -/
structure GKEDriftReport where
  totalClusters   : Nat
  driftedClusters : Nat
deriving Repr, DecidableEq

/-- The GKE text report renders the compliance-rate line only under an
`if r.TotalClusters > 0` guard; `none` means the line (and the division) is
skipped. -/
def gkeComplianceRate (r : GKEDriftReport) : Option GoFloat :=
  if r.totalClusters > 0 then
    some (.val (((r.totalClusters : ℚ) - (r.driftedClusters : ℚ))
      / (r.totalClusters : ℚ) * 100))
  else none

/-- Lookup of one label key on an instance: `none` both for a missing key
and for an absent (nil) label map.  Used to state what "the key exists in
the resource's label mapping with this value" means. -/
def labelLookup (inst : DatabaseInstance) (k : String) : Option String :=
  match inst.labels with
  | none => none
  | some m => lookupStr m k

/-- The baseline a given instance is effectively evaluated against in a
multi-baseline pass: a baseline applies when it has no label filter or when
its filter matches the instance. -/
def baselineApplies (b : SQLBaseline) (inst : DatabaseInstance) : Bool :=
  b.filterLabels.isEmpty || matchesLabels inst b.filterLabels

/-! ## General helper lemmas -/

theorem not_isEmpty_iff {α : Type} (l : List α) :
    (!l.isEmpty) = true ↔ l ≠ [] := by
  cases l <;> simp

theorem mem_ite_nil_singleton {α : Type} {c : Prop} [Decidable c] {x y : α}
    (h : x ∈ (if c then [y] else [])) : x = y := by
  split at h <;> simp_all

theorem map_singleton_flatten {α β : Type} (l : List α) (f : α → β) :
    (l.map (fun x => [f x])).flatten = l.map f := by
  induction l with
  | nil => rfl
  | cons a tl ih => simp [ih]

/-! ## C4: HasDrift invariant and nil-baseline short-circuit -/

/-- C4: every `SchemaValidationResult` has `HasDrift` true exactly when one
of the four finding lists is non-empty, and a nil baseline yields
`HasDrift=false` with all four lists empty, for any schema snapshot. -/
theorem validate_hasDrift_iff_findings (schema : DatabaseSchema)
    (baseline : Option SchemaBaseline) :
    ((ValidateSchemaAgainstBaseline schema baseline).hasDrift = true ↔
      ((ValidateSchemaAgainstBaseline schema baseline).countMismatches ≠ [] ∨
       (ValidateSchemaAgainstBaseline schema baseline).missingObjects ≠ [] ∨
       (ValidateSchemaAgainstBaseline schema baseline).forbiddenObjects ≠ [] ∨
       (ValidateSchemaAgainstBaseline schema baseline).ownershipViolations
         ≠ []))
    ∧ ValidateSchemaAgainstBaseline schema none = ⟨false, [], [], [], []⟩ := by
  refine ⟨?_, rfl⟩
  cases baseline with
  | none => simp [ValidateSchemaAgainstBaseline]
  | some b =>
    simp only [ValidateSchemaAgainstBaseline, Bool.or_eq_true,
      not_isEmpty_iff]
    tauto

/-! ## C8: label-filter matching semantics -/

/-- C8: an instance passes the label filter exactly when it is in the input
and every filter key is present among its labels with an equal value; a
missing key (in particular a nil label map) fails any non-empty filter, and
the empty filter passes every instance, nil label map included. -/
theorem filterInstances_mem_iff (instances : List DatabaseInstance)
    (inst : DatabaseInstance) (labels : List (String × String)) :
    inst ∈ filterInstancesByLabels instances labels ↔
      (inst ∈ instances ∧
        ∀ kv ∈ labels, labelLookup inst kv.1 = some kv.2) := by
  unfold filterInstancesByLabels
  by_cases h : labels = []
  · subst h; simp
  · rw [if_neg h, List.mem_filter]
    refine and_congr_right fun _ => ?_
    unfold matchesLabels labelLookup
    cases hl : inst.labels with
    | none =>
      simp only [Bool.false_eq_true, false_iff, not_forall]
      obtain ⟨kv, hkv⟩ := List.exists_mem_of_ne_nil labels h
      exact ⟨kv, hkv, by simp⟩
    | some m => simp [List.all_eq_true]

/-! ## C5: compliance rate and the zero-total guard -/

/-- C5 counterexample: on a report over zero resources the Cloud SQL text
renderers do perform the division — `0/0` in float64, rendered NaN — while
only the GKE renderer skips the line.  This falsifies the claim that the
computation is guarded against a zero total for every drift report. -/
theorem sql_compliance_rate_zero_total_is_nan :
    sqlComplianceRate ⟨0, 0, []⟩ = GoFloat.nan ∧
      gkeComplianceRate ⟨0, 0⟩ = none := by
  constructor
  · simp [sqlComplianceRate, goDiv, goMulPos]
  · simp [gkeComplianceRate]

/-- C5 amended: for a non-zero total the rendered compliance rate equals
`(total - drifted) / total * 100` in both renderers; at zero total the GKE
renderer skips the computation while the Cloud SQL renderers produce NaN
(the division is not guarded there). -/
theorem compliance_rate_formula (r : DriftReport) (g : GKEDriftReport)
    (hr : r.totalInstances ≠ 0) (hg : g.totalClusters ≠ 0) :
    sqlComplianceRate r =
      GoFloat.val (((r.totalInstances : ℚ) - (r.driftedInstances : ℚ))
        / (r.totalInstances : ℚ) * 100)
    ∧ gkeComplianceRate g =
      some (GoFloat.val (((g.totalClusters : ℚ) - (g.driftedClusters : ℚ))
        / (g.totalClusters : ℚ) * 100))
    ∧ (∀ insts, sqlComplianceRate ⟨0, 0, insts⟩ = GoFloat.nan)
    ∧ (∀ dc, gkeComplianceRate ⟨0, dc⟩ = none) := by
  refine ⟨?_, ?_, ?_, ?_⟩
  · have : (r.totalInstances : ℚ) ≠ 0 := Nat.cast_ne_zero.mpr hr
    simp [sqlComplianceRate, goDiv, goMulPos, this]
  · have : 0 < g.totalClusters := Nat.pos_of_ne_zero hg
    simp [gkeComplianceRate, this]
  · intro insts; simp [sqlComplianceRate, goDiv, goMulPos]
  · intro dc; simp [gkeComplianceRate]

/-! ### Shape lemmas: fields and severities of each comparison block -/

theorem versionCheck_shape {cfg b : DatabaseConfig} {d : Drift}
    (h : d ∈ versionCheck cfg b) :
    d.field = "database_version" ∧ d.severity = "medium" := by
  unfold versionCheck at h
  have := mem_ite_nil_singleton h
  subst this; exact ⟨rfl, rfl⟩

theorem tierCheck_shape {cfg b : DatabaseConfig} {d : Drift}
    (h : d ∈ tierCheck cfg b) :
    d.field = "tier" ∧ d.severity = "high" := by
  unfold tierCheck at h
  have := mem_ite_nil_singleton h
  subst this; exact ⟨rfl, rfl⟩

theorem diskTypeCheck_shape {cfg b : DatabaseConfig} {d : Drift}
    (h : d ∈ diskTypeCheck cfg b) :
    d.field = "disk_type" ∧ d.severity = "medium" := by
  unfold diskTypeCheck at h
  have := mem_ite_nil_singleton h
  subst this; exact ⟨rfl, rfl⟩

theorem diskSizeCheck_shape {cfg b : DatabaseConfig} {d : Drift}
    (h : d ∈ diskSizeCheck cfg b) :
    d.field = "disk_size_gb" ∧ d.severity = "medium" := by
  unfold diskSizeCheck at h
  have := mem_ite_nil_singleton h
  subst this; exact ⟨rfl, rfl⟩

theorem diskAutoresizeCheck_shape {cfg b : DatabaseConfig} {d : Drift}
    (h : d ∈ diskAutoresizeCheck cfg b) :
    d.field = "disk_autoresize" ∧ d.severity = "low" := by
  unfold diskAutoresizeCheck at h
  have := mem_ite_nil_singleton h
  subst this; exact ⟨rfl, rfl⟩

theorem compareDatabaseFlags_shape {cfg b : DatabaseConfig} {d : Drift}
    (h : d ∈ compareDatabaseFlags cfg b) :
    (∃ k, d.field = "database_flags." ++ k) ∧
      (d.severity = "medium" ∨ d.severity = "low") := by
  unfold compareDatabaseFlags at h
  rw [List.mem_append] at h
  rcases h with h | h
  · rw [List.mem_flatten] at h
    obtain ⟨l, hl, hdl⟩ := h
    rw [List.mem_map] at hl
    obtain ⟨kv, _, rfl⟩ := hl
    rcases hlk : lookupStr cfg.databaseFlags kv.1 with _ | av <;>
      rw [hlk] at hdl
    · rw [List.mem_singleton] at hdl
      subst hdl; exact ⟨⟨kv.1, rfl⟩, Or.inl rfl⟩
    · have := mem_ite_nil_singleton hdl
      subst this; exact ⟨⟨kv.1, rfl⟩, Or.inl rfl⟩
  · rw [List.mem_flatten] at h
    obtain ⟨l, hl, hdl⟩ := h
    rw [List.mem_map] at hl
    obtain ⟨kv, _, rfl⟩ := hl
    rcases hlk : lookupStr b.databaseFlags kv.1 with _ | av <;>
      rw [hlk] at hdl
    · rw [List.mem_singleton] at hdl
      subst hdl; exact ⟨⟨kv.1, rfl⟩, Or.inr rfl⟩
    · simp at hdl

theorem compareAuthorizedNetworks_shape {bip aip : IPConfiguration}
    {d : Drift} (h : d ∈ compareAuthorizedNetworks bip aip) :
    d.field = "settings.ip_configuration.authorized_networks" ∧
      (d.severity = "high" ∨ d.severity = "medium") := by
  unfold compareAuthorizedNetworks at h
  rw [List.mem_append] at h
  rcases h with h | h <;> have := mem_ite_nil_singleton h <;> subst this
  · exact ⟨rfl, Or.inl rfl⟩
  · exact ⟨rfl, Or.inr rfl⟩

theorem compareSettingsChecks_shape {a b : Settings} {d : Drift}
    (h : d ∈ compareSettingsChecks a b) :
    (d.field, d.severity) ∈ [
      ("settings.availability_type", "high"),
      ("settings.backup_enabled", "critical"),
      ("settings.point_in_time_recovery", "high"),
      ("settings.backup_retention_days", "medium"),
      ("settings.transaction_log_retention_days", "medium"),
      ("settings.pricing_plan", "low"),
      ("settings.replication_type", "medium"),
      ("settings.backup_start_time", "low"),
      ("settings.ip_configuration.ipv4_enabled", "medium"),
      ("settings.ip_configuration.require_ssl", "critical"),
      ("settings.ip_configuration.authorized_networks", "high"),
      ("settings.ip_configuration.authorized_networks", "medium"),
      ("settings.insights_config.query_insights_enabled", "low"),
      ("settings.insights_config.query_plans_per_minute", "low"),
      ("settings.insights_config.query_string_length", "low")] := by
  unfold compareSettingsChecks at h
  simp only [List.mem_append] at h
  rcases h with ((((((((h | h) | h) | h) | h) | h) | h) | h) | h) | h
  · have := mem_ite_nil_singleton h; subst this; simp
  · have := mem_ite_nil_singleton h; subst this; simp
  · have := mem_ite_nil_singleton h; subst this; simp
  · have := mem_ite_nil_singleton h; subst this; simp
  · have := mem_ite_nil_singleton h; subst this; simp
  · have := mem_ite_nil_singleton h; subst this; simp
  · have := mem_ite_nil_singleton h; subst this; simp
  · have := mem_ite_nil_singleton h; subst this; simp
  · rcases hbi : b.ipConfiguration with _ | bip <;> rw [hbi] at h
    · simp at h
    · rcases hai : a.ipConfiguration with _ | aip <;> rw [hai] at h
      · simp at h
      · simp only [List.mem_append] at h
        rcases h with (h | h) | h
        · have := mem_ite_nil_singleton h; subst this; simp
        · have := mem_ite_nil_singleton h; subst this; simp
        · rw [List.mem_ite_nil_right] at h
          have := compareAuthorizedNetworks_shape h.2
          obtain ⟨h1, h2 | h2⟩ := this <;> rw [h1, h2] <;> simp
  · rcases hbi : b.insightsConfig with _ | bic <;> rw [hbi] at h
    · simp at h
    · rcases hai : a.insightsConfig with _ | aic <;> rw [hai] at h
      · simp at h
      · simp only [List.mem_append] at h
        rcases h with (h | h) | h
        · have := mem_ite_nil_singleton h; subst this; simp
        · have := mem_ite_nil_singleton h; subst this; simp
        · have := mem_ite_nil_singleton h; subst this; simp

theorem compareSettings_shape {ao bo : Option Settings} {d : Drift}
    (h : d ∈ compareSettings ao bo) :
    (d.field, d.severity) ∈ [
      ("settings.availability_type", "high"),
      ("settings.backup_enabled", "critical"),
      ("settings.point_in_time_recovery", "high"),
      ("settings.backup_retention_days", "medium"),
      ("settings.transaction_log_retention_days", "medium"),
      ("settings.pricing_plan", "low"),
      ("settings.replication_type", "medium"),
      ("settings.backup_start_time", "low"),
      ("settings.ip_configuration.ipv4_enabled", "medium"),
      ("settings.ip_configuration.require_ssl", "critical"),
      ("settings.ip_configuration.authorized_networks", "high"),
      ("settings.ip_configuration.authorized_networks", "medium"),
      ("settings.insights_config.query_insights_enabled", "low"),
      ("settings.insights_config.query_plans_per_minute", "low"),
      ("settings.insights_config.query_string_length", "low")] := by
  match ao, bo with
  | _, none => simp [compareSettings] at h
  | none, some _ => simp [compareSettings] at h
  | some a, some b => exact compareSettingsChecks_shape h

theorem checkRequiredDatabases_shape {inst : DatabaseInstance}
    {b : DatabaseConfig} {d : Drift}
    (h : d ∈ checkRequiredDatabases inst b) :
    d.field = "required_databases" ∧
      (d.severity = "high" ∨ d.severity = "medium") := by
  unfold checkRequiredDatabases at h
  split at h
  · simp at h
  · rw [List.mem_append] at h
    rcases h with h | h <;> have := mem_ite_nil_singleton h <;> subst this
    · exact ⟨rfl, Or.inl rfl⟩
    · exact ⟨rfl, Or.inr rfl⟩

/-- C5 witness: the amended statement applied at a one-instance SQL report
and a two-cluster GKE report. -/
theorem compliance_rate_formula_witness :
    sqlComplianceRate ⟨1, 0, []⟩ =
      GoFloat.val (((1 : ℚ) - (0 : ℚ)) / (1 : ℚ) * 100)
    ∧ gkeComplianceRate ⟨2, 1⟩ =
      some (GoFloat.val (((2 : ℚ) - (1 : ℚ)) / (2 : ℚ) * 100))
    ∧ (∀ insts, sqlComplianceRate ⟨0, 0, insts⟩ = GoFloat.nan)
    ∧ (∀ dc, gkeComplianceRate ⟨0, dc⟩ = none) := by
  have h := compliance_rate_formula ⟨1, 0, []⟩ ⟨2, 1⟩ (by decide) (by decide)
  simpa using h

/-! ### Field disambiguation and severity classification lemmas -/

theorem dbflags_field_ne_version (k : String) :
    "database_flags." ++ k ≠ "database_version" := by
  intro h
  have hd : "database_flags.".data ++ k.data = "database_version".data :=
    congrArg String.data h
  have h15 : List.take 15 ("database_flags.".data ++ k.data)
      = "database_flags.".data := List.take_left' rfl
  rw [hd] at h15
  exact absurd h15 (by decide)

theorem compareSettings_field_sev {ao bo : Option Settings} {d : Drift}
    (h : d ∈ compareSettings ao bo) :
    d.field ≠ "database_version" ∧
      (d.severity = "critical" ∨ d.severity = "high" ∨
        d.severity = "medium" ∨ d.severity = "low") := by
  have hs := compareSettings_shape h
  simp only [List.mem_cons, List.not_mem_nil, or_false, Prod.mk.injEq] at hs
  rcases hs with ⟨h1, h2⟩ | ⟨h1, h2⟩ | ⟨h1, h2⟩ | ⟨h1, h2⟩ | ⟨h1, h2⟩ |
    ⟨h1, h2⟩ | ⟨h1, h2⟩ | ⟨h1, h2⟩ | ⟨h1, h2⟩ | ⟨h1, h2⟩ | ⟨h1, h2⟩ |
    ⟨h1, h2⟩ | ⟨h1, h2⟩ | ⟨h1, h2⟩ | ⟨h1, h2⟩ <;>
    rw [h1, h2] <;> refine ⟨by decide, by simp⟩

theorem analyzeInstanceDrifts_sev {inst : DatabaseInstance}
    {b : DatabaseConfig} {d : Drift}
    (h : d ∈ analyzeInstanceDrifts inst b) :
    d.severity = "critical" ∨ d.severity = "high" ∨
      d.severity = "medium" ∨ d.severity = "low" := by
  unfold analyzeInstanceDrifts at h
  simp only [List.mem_append] at h
  rcases h with ((((((h | h) | h) | h) | h) | h) | h) | h
  · exact Or.inr (Or.inr (Or.inl (versionCheck_shape h).2))
  · exact Or.inr (Or.inl (tierCheck_shape h).2)
  · exact Or.inr (Or.inr (Or.inl (diskTypeCheck_shape h).2))
  · exact Or.inr (Or.inr (Or.inl (diskSizeCheck_shape h).2))
  · exact Or.inr (Or.inr (Or.inr (diskAutoresizeCheck_shape h).2))
  · rcases (compareDatabaseFlags_shape h).2 with h2 | h2
    · exact Or.inr (Or.inr (Or.inl h2))
    · exact Or.inr (Or.inr (Or.inr h2))
  · exact (compareSettings_field_sev h).2
  · rcases (checkRequiredDatabases_shape h).2 with h2 | h2
    · exact Or.inr (Or.inl h2)
    · exact Or.inr (Or.inr (Or.inl h2))

theorem analyzeInstanceDrifts_countP_version (inst : DatabaseInstance)
    (b : DatabaseConfig) :
    (analyzeInstanceDrifts inst b).countP
        (fun d => d.field == "database_version")
      = (versionCheck inst.config b).length := by
  unfold analyzeInstanceDrifts
  repeat rw [List.countP_append]
  have hv : (versionCheck inst.config b).countP
      (fun d => d.field == "database_version")
      = (versionCheck inst.config b).length :=
    List.countP_eq_length.mpr fun d hd => by
      simp [(versionCheck_shape hd).1]
  have ht : (tierCheck inst.config b).countP
      (fun d => d.field == "database_version") = 0 :=
    List.countP_eq_zero.mpr fun d hd => by
      simp [(tierCheck_shape hd).1]
  have hdt : (diskTypeCheck inst.config b).countP
      (fun d => d.field == "database_version") = 0 :=
    List.countP_eq_zero.mpr fun d hd => by
      simp [(diskTypeCheck_shape hd).1]
  have hds : (diskSizeCheck inst.config b).countP
      (fun d => d.field == "database_version") = 0 :=
    List.countP_eq_zero.mpr fun d hd => by
      simp [(diskSizeCheck_shape hd).1]
  have hda : (diskAutoresizeCheck inst.config b).countP
      (fun d => d.field == "database_version") = 0 :=
    List.countP_eq_zero.mpr fun d hd => by
      simp [(diskAutoresizeCheck_shape hd).1]
  have hf : (compareDatabaseFlags inst.config b).countP
      (fun d => d.field == "database_version") = 0 :=
    List.countP_eq_zero.mpr fun d hd => by
      obtain ⟨⟨k, hk⟩, -⟩ := compareDatabaseFlags_shape hd
      simp only [hk, beq_iff_eq]
      exact dbflags_field_ne_version k
  have hst : (compareSettings inst.config.settings b.settings).countP
      (fun d => d.field == "database_version") = 0 :=
    List.countP_eq_zero.mpr fun d hd => by
      simp only [beq_iff_eq]
      exact (compareSettings_field_sev hd).1
  have hrd : (checkRequiredDatabases inst b).countP
      (fun d => d.field == "database_version") = 0 :=
    List.countP_eq_zero.mpr fun d hd => by
      simp [(checkRequiredDatabases_shape hd).1]
  omega

/-! ## C6: version-field comparison semantics -/

/-- C6 counterexample: for the SQL `database_version` field a pure
patch-suffix difference (`POSTGRES_14.1` vs `POSTGRES_14.2`, identical
truncated major.minor projections) does produce a drift, because the SQL
comparator compares the full string.  This falsifies the claim that every
version-like field is compared through the truncated projection. -/
theorem sql_version_patch_difference_still_drifts :
    extractMinorVersion "POSTGRES_14.2" = extractMinorVersion "POSTGRES_14.1"
    ∧ analyzeInstanceDrifts
        ⟨"p", "n", "RUNNABLE", "r",
          ⟨"POSTGRES_14.2", "", [], none, 0, "", false, [], []⟩,
          none, none, []⟩
        ⟨"POSTGRES_14.1", "", [], none, 0, "", false, [], []⟩
      = [⟨"database_version", "POSTGRES_14.1", "POSTGRES_14.2", "medium"⟩] := by
  constructor
  · decide
  · decide

/-- C6 amended: when the baseline sets the field, the GKE
`cluster.master_version` check drifts exactly when the truncated major.minor
projections differ, while the SQL `database_version` check drifts exactly
when the full version strings differ (patch-level differences included);
moreover the `database_version` drifts of the whole SQL comparator are
exactly those of its version check. -/
theorem version_comparison_semantics :
    (∀ cfg b : DatabaseConfig, b.databaseVersion ≠ "" →
      (versionCheck cfg b ≠ [] ↔ cfg.databaseVersion ≠ b.databaseVersion))
    ∧ (∀ a bv : String, bv ≠ "" →
      (compareVersion a bv ≠ [] ↔
        extractMinorVersion a ≠ extractMinorVersion bv))
    ∧ (∀ (inst : DatabaseInstance) (b : DatabaseConfig),
      (analyzeInstanceDrifts inst b).countP
          (fun d => d.field == "database_version")
        = (versionCheck inst.config b).length) := by
  refine ⟨?_, ?_, analyzeInstanceDrifts_countP_version⟩
  · intro cfg b hset
    unfold versionCheck
    by_cases h : cfg.databaseVersion = b.databaseVersion <;> simp [hset, h]
  · intro a bv hset
    unfold compareVersion
    by_cases h : extractMinorVersion a = extractMinorVersion bv <;>
      simp [hset, h]

/-- C6 witness: the amended statement applied at a GKE patch-level
difference (no drift), an SQL full-string difference (drift), and the
comparator-level count. -/
theorem version_comparison_semantics_witness :
    (versionCheck ⟨"POSTGRES_15", "", [], none, 0, "", false, [], []⟩
        ⟨"POSTGRES_14", "", [], none, 0, "", false, [], []⟩ ≠ [] ↔
      ("POSTGRES_15" : String) ≠ "POSTGRES_14")
    ∧ (compareVersion "1.33.5-gke.1308000" "1.33.2-gke.100" ≠ [] ↔
      extractMinorVersion "1.33.5-gke.1308000"
        ≠ extractMinorVersion "1.33.2-gke.100")
    ∧ (analyzeInstanceDrifts
        ⟨"p", "n", "RUNNABLE", "r",
          ⟨"POSTGRES_15", "", [], none, 0, "", false, [], []⟩,
          none, none, []⟩
        ⟨"POSTGRES_14", "", [], none, 0, "", false, [], []⟩).countP
          (fun d => d.field == "database_version")
      = (versionCheck ⟨"POSTGRES_15", "", [], none, 0, "", false, [], []⟩
          ⟨"POSTGRES_14", "", [], none, 0, "", false, [], []⟩).length := by
  refine ⟨?_, ?_, ?_⟩
  · exact version_comparison_semantics.1
      ⟨"POSTGRES_15", "", [], none, 0, "", false, [], []⟩
      ⟨"POSTGRES_14", "", [], none, 0, "", false, [], []⟩ (by decide)
  · exact version_comparison_semantics.2.1 "1.33.5-gke.1308000"
      "1.33.2-gke.100" (by decide)
  · exact version_comparison_semantics.2.2
      ⟨"p", "n", "RUNNABLE", "r",
        ⟨"POSTGRES_15", "", [], none, 0, "", false, [], []⟩,
        none, none, []⟩
      ⟨"POSTGRES_14", "", [], none, 0, "", false, [], []⟩

/-! ## C9: severity vocabulary and the per-severity partition -/

theorem countBySeverity_foldl (ds : List Drift) (acc : ℕ × ℕ × ℕ × ℕ) :
    ds.foldl (fun acc d =>
      if d.severity = "critical" then
        (acc.1 + 1, acc.2.1, acc.2.2.1, acc.2.2.2)
      else if d.severity = "high" then
        (acc.1, acc.2.1 + 1, acc.2.2.1, acc.2.2.2)
      else if d.severity = "medium" then
        (acc.1, acc.2.1, acc.2.2.1 + 1, acc.2.2.2)
      else if d.severity = "low" then
        (acc.1, acc.2.1, acc.2.2.1, acc.2.2.2 + 1)
      else acc) acc
    = (acc.1 + ds.countP (fun d => d.severity == "critical"),
       acc.2.1 + ds.countP (fun d => d.severity == "high"),
       acc.2.2.1 + ds.countP (fun d => d.severity == "medium"),
       acc.2.2.2 + ds.countP (fun d => d.severity == "low")) := by
  induction ds generalizing acc with
  | nil => simp
  | cons d tl ih =>
    rw [List.foldl_cons, ih]
    simp only [List.countP_cons, beq_iff_eq]
    by_cases h1 : d.severity = "critical"
    · simp [h1, Prod.ext_iff]; omega
    · by_cases h2 : d.severity = "high"
      · simp [h1, h2, Prod.ext_iff]; omega
      · by_cases h3 : d.severity = "medium"
        · simp [h1, h2, h3, Prod.ext_iff]; omega
        · by_cases h4 : d.severity = "low"
          · simp [h1, h2, h3, h4, Prod.ext_iff]; omega
          · simp [h1, h2, h3, h4, Prod.ext_iff]

theorem CountBySeverity_spec (ds : List Drift) :
    CountBySeverity ds =
      (ds.countP (fun d => d.severity == "critical"),
       ds.countP (fun d => d.severity == "high"),
       ds.countP (fun d => d.severity == "medium"),
       ds.countP (fun d => d.severity == "low")) := by
  unfold CountBySeverity
  simpa using countBySeverity_foldl ds (0, 0, 0, 0)

theorem four_severity_partition (ds : List Drift)
    (h : ∀ d ∈ ds, d.severity = "critical" ∨ d.severity = "high" ∨
      d.severity = "medium" ∨ d.severity = "low") :
    ds.countP (fun d => d.severity == "critical")
      + ds.countP (fun d => d.severity == "high")
      + ds.countP (fun d => d.severity == "medium")
      + ds.countP (fun d => d.severity == "low")
      = ds.length := by
  induction ds with
  | nil => simp
  | cons d tl ih =>
    simp only [List.countP_cons, List.length_cons, beq_iff_eq]
    have hd := h d (List.mem_cons_self _ _)
    have ih2 := ih fun x hx => h x (List.mem_cons_of_mem _ hx)
    rcases hd with h1 | h1 | h1 | h1 <;> simp [h1] <;> omega

/-- C9: every drift constructed by the SQL instance comparator carries one
of the four severities critical/high/medium/low, and consequently the four
per-severity tallies of `CountBySeverity` partition the comparator's drift
list: their sum equals its length. -/
theorem drift_severity_partition (inst : DatabaseInstance)
    (baseline : Option DatabaseConfig) :
    (∀ d ∈ (analyzeInstance inst baseline).drifts,
      d.severity ∈ (["critical", "high", "medium", "low"] : List String))
    ∧ ((CountBySeverity (analyzeInstance inst baseline).drifts).1
        + (CountBySeverity (analyzeInstance inst baseline).drifts).2.1
        + (CountBySeverity (analyzeInstance inst baseline).drifts).2.2.1
        + (CountBySeverity (analyzeInstance inst baseline).drifts).2.2.2
        = (analyzeInstance inst baseline).drifts.length) := by
  have hds : ∀ d ∈ (analyzeInstance inst baseline).drifts,
      d.severity = "critical" ∨ d.severity = "high" ∨
        d.severity = "medium" ∨ d.severity = "low" := by
    cases baseline with
    | none => intro d hd; simp [analyzeInstance] at hd
    | some b =>
      intro d hd
      exact analyzeInstanceDrifts_sev (by simpa [analyzeInstance] using hd)
  constructor
  · intro d hd
    rcases hds d hd with h | h | h | h <;> simp [h]
  · rw [CountBySeverity_spec]
    exact four_severity_partition _ hds

/-- C9 witness: the partition property evaluated on a concrete instance
whose comparison yields a tier drift. -/
theorem drift_severity_partition_witness :
    (∀ d ∈ (analyzeInstance
        ⟨"p", "n", "RUNNABLE", "r",
          ⟨"", "db-f1-micro", [], none, 0, "", false, [], []⟩,
          none, none, []⟩
        (some ⟨"", "db-custom-2", [], none, 0, "", false, [], []⟩)).drifts,
      d.severity ∈ (["critical", "high", "medium", "low"] : List String))
    ∧ ((CountBySeverity (analyzeInstance
        ⟨"p", "n", "RUNNABLE", "r",
          ⟨"", "db-f1-micro", [], none, 0, "", false, [], []⟩,
          none, none, []⟩
        (some ⟨"", "db-custom-2", [], none, 0, "", false, [], []⟩)).drifts).1
        + (CountBySeverity (analyzeInstance
        ⟨"p", "n", "RUNNABLE", "r",
          ⟨"", "db-f1-micro", [], none, 0, "", false, [], []⟩,
          none, none, []⟩
        (some ⟨"", "db-custom-2", [], none, 0, "", false, [], []⟩)).drifts).2.1
        + (CountBySeverity (analyzeInstance
        ⟨"p", "n", "RUNNABLE", "r",
          ⟨"", "db-f1-micro", [], none, 0, "", false, [], []⟩,
          none, none, []⟩
        (some ⟨"", "db-custom-2", [], none, 0, "", false, [], []⟩)).drifts).2.2.1
        + (CountBySeverity (analyzeInstance
        ⟨"p", "n", "RUNNABLE", "r",
          ⟨"", "db-f1-micro", [], none, 0, "", false, [], []⟩,
          none, none, []⟩
        (some ⟨"", "db-custom-2", [], none, 0, "", false, [], []⟩)).drifts).2.2.2
        = (analyzeInstance
        ⟨"p", "n", "RUNNABLE", "r",
          ⟨"", "db-f1-micro", [], none, 0, "", false, [], []⟩,
          none, none, []⟩
        (some ⟨"", "db-custom-2", [], none, 0, "", false, [], []⟩)).drifts.length) :=
  drift_severity_partition
    ⟨"p", "n", "RUNNABLE", "r",
      ⟨"", "db-f1-micro", [], none, 0, "", false, [], []⟩,
      none, none, []⟩
    (some ⟨"", "db-custom-2", [], none, 0, "", false, [], []⟩)

/-! ## C2: the fully-unset (vacuous) baseline -/

/-- C2 counterexample: against the fully-unset baseline (every string empty,
every sub-record nil, zero numerics, empty flag map and required-databases
list), an instance carrying one database flag still receives a drift — the
extra-flag scan of `compareDatabaseFlags` runs even when the baseline flag
map is empty.  This falsifies the vacuous-baseline property as stated. -/
theorem vacuous_baseline_flag_drift :
    (analyzeInstance
        ⟨"p", "n", "RUNNABLE", "r",
          ⟨"POSTGRES_15", "db-f1", [("log_statement", "all")], none, 10,
            "SSD", true, [], []⟩,
          none, none, ["appdb"]⟩
        (some ⟨"", "", [], none, 0, "", false, [], []⟩)).drifts
      = [⟨"database_flags.log_statement", "not set", "all", "low"⟩]
    ∧ [⟨"database_flags.log_statement", "not set", "all", "low"⟩]
      ≠ ([] : List Drift) := ⟨by decide, by decide⟩

/-- C2 amended: comparing any actual instance against the fully-unset
baseline yields exactly one low-severity "extra" drift per database flag
present on the actual instance and nothing else — in particular the result
is empty exactly when the actual instance has no database flags, and no
boolean setting of the actual instance produces a drift (the nil baseline
sub-record skips the whole settings comparison). -/
theorem vacuous_baseline_drifts (inst : DatabaseInstance) :
    (analyzeInstance inst
        (some ⟨"", "", [], none, 0, "", false, [], []⟩)).drifts
      = inst.config.databaseFlags.map
          (fun kv => ⟨"database_flags." ++ kv.1, "not set", kv.2, "low"⟩) := by
  simp only [analyzeInstance]
  unfold analyzeInstanceDrifts versionCheck tierCheck diskTypeCheck
    diskSizeCheck diskAutoresizeCheck compareDatabaseFlags compareSettings
    checkRequiredDatabases
  simp [lookupStr, map_singleton_flatten]

/-! ## C1: forbidden-owner precedence -/

/-- C1 counterexample: a table whose owner is forbidden, under a baseline
that also configures a non-empty allowed-owners whitelist not containing
that owner, yields exactly the single `forbidden_owner` violation — the
whitelist check is skipped for that object, so no additional `wrong_owner`
violation is appended, contrary to the claim. -/
theorem forbidden_owner_no_whitelist_violation :
    (["good"] : List String) ≠ [] ∧ "bad" ∉ (["good"] : List String)
    ∧ (ValidateSchemaAgainstBaseline
        ⟨"d", "o", [], [⟨"public", "t", "bad"⟩], [], [], [], [], []⟩
        (some { forbiddenOwners := ["bad"],
                allowedOwners := ["good"] })).ownershipViolations
      = [⟨"Table", "public.t", "bad", "(any non-forbidden owner)",
          "forbidden_owner"⟩] :=
  ⟨by decide, by decide, by decide⟩

/-- C1 amended: in every object category, an object whose actual owner is
forbidden receives exactly one violation, of kind `forbidden_owner`, and
every further owner check for that object — the exception lookups, the
category-wide expected owner, and also the allowed-owners whitelist check —
is skipped, whatever the rest of the baseline configures. -/
theorem forbidden_owner_exactly_one_violation
    (b : SchemaBaseline) (t : TableInfo) (v : ViewInfo) (s : SequenceInfo)
    (f : FunctionInfo) (p : ProcedureInfo)
    (ht : t.owner ∈ b.forbiddenOwners) (hv : v.owner ∈ b.forbiddenOwners)
    (hs : s.owner ∈ b.forbiddenOwners) (hf : f.owner ∈ b.forbiddenOwners)
    (hp : p.owner ∈ b.forbiddenOwners) :
    tableOwnerCheck b t = [⟨"Table", qualifiedTableName t, t.owner,
        "(any non-forbidden owner)", "forbidden_owner"⟩]
    ∧ viewOwnerCheck b v = [⟨"View", qualifiedViewName v, v.owner,
        "(any non-forbidden owner)", "forbidden_owner"⟩]
    ∧ sequenceOwnerCheck b s = [⟨"Sequence", qualifiedSeqName s, s.owner,
        "(any non-forbidden owner)", "forbidden_owner"⟩]
    ∧ functionOwnerCheck b f = [⟨"Function", qualifiedFunctionName f,
        f.owner, "(any non-forbidden owner)", "forbidden_owner"⟩]
    ∧ procedureOwnerCheck b p = [⟨"Procedure", qualifiedProcedureName p,
        p.owner, "(any non-forbidden owner)", "forbidden_owner"⟩] := by
  refine ⟨?_, ?_, ?_, ?_, ?_⟩
  · simp [tableOwnerCheck, ht]
  · simp [viewOwnerCheck, hv]
  · simp [sequenceOwnerCheck, hs]
  · simp [functionOwnerCheck, hf]
  · simp [procedureOwnerCheck, hp]

/-- C1 witness: the amended statement at a concrete baseline that also sets
category-wide expected owners, exceptions and a whitelist — the forbidden
owner still yields exactly the one `forbidden_owner` violation per object. -/
theorem forbidden_owner_exactly_one_violation_witness :
    tableOwnerCheck
        { forbiddenOwners := ["bad"], allowedOwners := ["good"],
          expectedTableOwner := "postgres",
          tableOwnerExceptions := some [("public.t", "admin")] }
        ⟨"public", "t", "bad"⟩
      = [⟨"Table", "public.t", "bad", "(any non-forbidden owner)",
          "forbidden_owner"⟩]
    ∧ viewOwnerCheck
        { forbiddenOwners := ["bad"], allowedOwners := ["good"],
          expectedTableOwner := "postgres",
          tableOwnerExceptions := some [("public.t", "admin")] }
        ⟨"public", "w", "bad"⟩
      = [⟨"View", "public.w", "bad", "(any non-forbidden owner)",
          "forbidden_owner"⟩]
    ∧ sequenceOwnerCheck
        { forbiddenOwners := ["bad"], allowedOwners := ["good"],
          expectedTableOwner := "postgres",
          tableOwnerExceptions := some [("public.t", "admin")] }
        ⟨"public", "sq", "bad"⟩
      = [⟨"Sequence", "public.sq", "bad", "(any non-forbidden owner)",
          "forbidden_owner"⟩]
    ∧ functionOwnerCheck
        { forbiddenOwners := ["bad"], allowedOwners := ["good"],
          expectedTableOwner := "postgres",
          tableOwnerExceptions := some [("public.t", "admin")] }
        ⟨"public", "fn", "bad", "integer"⟩
      = [⟨"Function", "public.fn(integer)", "bad",
          "(any non-forbidden owner)", "forbidden_owner"⟩]
    ∧ procedureOwnerCheck
        { forbiddenOwners := ["bad"], allowedOwners := ["good"],
          expectedTableOwner := "postgres",
          tableOwnerExceptions := some [("public.t", "admin")] }
        ⟨"public", "pr", "bad", "text"⟩
      = [⟨"Procedure", "public.pr(text)", "bad",
          "(any non-forbidden owner)", "forbidden_owner"⟩] :=
  forbidden_owner_exactly_one_violation
    { forbiddenOwners := ["bad"], allowedOwners := ["good"],
      expectedTableOwner := "postgres",
      tableOwnerExceptions := some [("public.t", "admin")] }
    ⟨"public", "t", "bad"⟩ ⟨"public", "w", "bad"⟩ ⟨"public", "sq", "bad"⟩
    ⟨"public", "fn", "bad", "integer"⟩ ⟨"public", "pr", "bad", "text"⟩
    (by decide) (by decide) (by decide) (by decide) (by decide)

/-! ## C7: exception-map lookup strategies -/

/-- C7 counterexample: a sequence whose exception is recorded under its bare
name (with a matching owner) is nevertheless reported as `wrong_owner`
against the category-wide expected owner — the bare-name fallback lookup
exists only for tables and views, not for sequences. -/
theorem bare_name_exception_ignored_for_sequences :
    lookupStr [("s", "x")] "s" = some "x"
    ∧ (ValidateSchemaAgainstBaseline
        ⟨"d", "o", [], [], [], [⟨"public", "s", "x"⟩], [], [], []⟩
        (some { sequenceOwnerExceptions := some [("s", "x")],
                expectedSequenceOwner := "y" })).ownershipViolations
      = [⟨"Sequence", "public.s", "x", "y", "wrong_owner"⟩] :=
  ⟨by decide, by decide⟩

/-- C7 amended: for tables and views (owner not forbidden, exception map
present) the exception is consulted by qualified name first with a bare-name
fallback — a hit compares the owner against the exception and ends the
object's checks; for sequences, functions and procedures the exception map
is consulted by the qualified name only (for functions and procedures it
includes the argument list), so a qualified-name miss falls through to the
category-wide checks regardless of any bare-name entry. -/
theorem exception_lookup_strategies :
    (∀ (bl : SchemaBaseline) (m : List (String × String)) (t : TableInfo),
      bl.tableOwnerExceptions = some m → t.owner ∉ bl.forbiddenOwners →
      tableOwnerCheck bl t =
        match (lookupStr m (qualifiedTableName t)).or (lookupStr m t.name)
          with
        | some e => if t.owner ≠ e then
            [⟨"Table", qualifiedTableName t, t.owner, e, "wrong_owner"⟩]
          else []
        | none => ownerFallbackChecks "Table" (qualifiedTableName t) t.owner
            bl.expectedTableOwner bl.allowedOwners)
    ∧ (∀ (bl : SchemaBaseline) (m : List (String × String)) (v : ViewInfo),
      bl.viewOwnerExceptions = some m → v.owner ∉ bl.forbiddenOwners →
      viewOwnerCheck bl v =
        match (lookupStr m (qualifiedViewName v)).or (lookupStr m v.name)
          with
        | some e => if v.owner ≠ e then
            [⟨"View", qualifiedViewName v, v.owner, e, "wrong_owner"⟩]
          else []
        | none => ownerFallbackChecks "View" (qualifiedViewName v) v.owner
            bl.expectedViewOwner bl.allowedOwners)
    ∧ (∀ (bl : SchemaBaseline) (m : List (String × String))
        (s : SequenceInfo),
      bl.sequenceOwnerExceptions = some m → s.owner ∉ bl.forbiddenOwners →
      sequenceOwnerCheck bl s =
        match lookupStr m (qualifiedSeqName s) with
        | some e => if s.owner ≠ e then
            [⟨"Sequence", qualifiedSeqName s, s.owner, e, "wrong_owner"⟩]
          else []
        | none => ownerFallbackChecks "Sequence" (qualifiedSeqName s)
            s.owner bl.expectedSequenceOwner bl.allowedOwners)
    ∧ (∀ (bl : SchemaBaseline) (m : List (String × String))
        (f : FunctionInfo),
      bl.functionOwnerExceptions = some m → f.owner ∉ bl.forbiddenOwners →
      functionOwnerCheck bl f =
        match lookupStr m (qualifiedFunctionName f) with
        | some e => if f.owner ≠ e then
            [⟨"Function", qualifiedFunctionName f, f.owner, e,
              "wrong_owner"⟩]
          else []
        | none => ownerFallbackChecks "Function" (qualifiedFunctionName f)
            f.owner bl.expectedFunctionOwner bl.allowedOwners)
    ∧ (∀ (bl : SchemaBaseline) (m : List (String × String))
        (p : ProcedureInfo),
      bl.procedureOwnerExceptions = some m → p.owner ∉ bl.forbiddenOwners →
      procedureOwnerCheck bl p =
        match lookupStr m (qualifiedProcedureName p) with
        | some e => if p.owner ≠ e then
            [⟨"Procedure", qualifiedProcedureName p, p.owner, e,
              "wrong_owner"⟩]
          else []
        | none => ownerFallbackChecks "Procedure" (qualifiedProcedureName p)
            p.owner bl.expectedProcedureOwner bl.allowedOwners) := by
  refine ⟨?_, ?_, ?_, ?_, ?_⟩
  · intro bl m t hm hforb
    unfold tableOwnerCheck
    rw [if_neg hforb, hm]
    rcases hq : lookupStr m (qualifiedTableName t) with _ | e
    · rcases hb : lookupStr m t.name with _ | e2 <;>
        simp [hq, hb, Option.or]
    · simp [hq, Option.or]
  · intro bl m v hm hforb
    unfold viewOwnerCheck
    rw [if_neg hforb, hm]
    rcases hq : lookupStr m (qualifiedViewName v) with _ | e
    · rcases hb : lookupStr m v.name with _ | e2 <;>
        simp [hq, hb, Option.or]
    · simp [hq, Option.or]
  · intro bl m s hm hforb
    unfold sequenceOwnerCheck
    rw [if_neg hforb, hm]
  · intro bl m f hm hforb
    unfold functionOwnerCheck
    rw [if_neg hforb, hm]
  · intro bl m p hm hforb
    unfold procedureOwnerCheck
    rw [if_neg hforb, hm]

/-- C7 witness: the lookup strategies applied at concrete objects — a table
exception found under the bare name, and a sequence whose bare-name entry is
ignored so the category-wide fallback applies. -/
theorem exception_lookup_strategies_witness :
    tableOwnerCheck
        { tableOwnerExceptions := some [("t", "admin")],
          expectedTableOwner := "postgres" }
        ⟨"public", "t", "admin"⟩
      = (match (lookupStr [("t", "admin")] "public.t").or
            (lookupStr [("t", "admin")] "t") with
        | some e => if ("admin" : String) ≠ e then
            [⟨"Table", "public.t", "admin", e, "wrong_owner"⟩]
          else []
        | none => ownerFallbackChecks "Table" "public.t" "admin" "postgres"
            [])
    ∧ sequenceOwnerCheck
        { sequenceOwnerExceptions := some [("s", "x")],
          expectedSequenceOwner := "y" }
        ⟨"public", "s", "x"⟩
      = (match lookupStr [("s", "x")] "public.s" with
        | some e => if ("x" : String) ≠ e then
            [⟨"Sequence", "public.s", "x", e, "wrong_owner"⟩]
          else []
        | none => ownerFallbackChecks "Sequence" "public.s" "x" "y" []) :=
  ⟨exception_lookup_strategies.1
      { tableOwnerExceptions := some [("t", "admin")],
        expectedTableOwner := "postgres" }
      [("t", "admin")] ⟨"public", "t", "admin"⟩ rfl (by decide),
    exception_lookup_strategies.2.2.1
      { sequenceOwnerExceptions := some [("s", "x")],
        expectedSequenceOwner := "y" }
      [("s", "x")] ⟨"public", "s", "x"⟩ rfl (by decide)⟩

/-! ## Multi-baseline loop lemmas (C3, C10) -/

theorem driftKey_analyzeInstance (i : DatabaseInstance)
    (b : Option DatabaseConfig) :
    driftKey (analyzeInstance i b) = instanceKey i := by
  cases b <;> rfl

theorem stepInstance_skip {cfg : Option DatabaseConfig}
    {st : MultiBaselineState} {i : DatabaseInstance}
    (h : instanceKey i ∈ st.analyzed) : stepInstance cfg st i = st := by
  unfold stepInstance
  rw [if_pos h]

theorem stepInstance_fresh {cfg : Option DatabaseConfig}
    {st : MultiBaselineState} {i : DatabaseInstance}
    (h : instanceKey i ∉ st.analyzed) :
    stepInstance cfg st i =
      ⟨st.analyzed ++ [instanceKey i],
        st.collected ++ [analyzeInstance i cfg],
        st.drifted
          + (if (analyzeInstance i cfg).drifts.isEmpty then 0 else 1)⟩ := by
  unfold stepInstance
  rw [if_neg h]

theorem foldl_step_avoid (cfg : Option DatabaseConfig)
    (xs : List DatabaseInstance) (st : MultiBaselineState) (k : String)
    (hxs : ∀ x ∈ xs, instanceKey x ≠ k) :
    ((xs.foldl (stepInstance cfg) st).collected.filter
        (fun d => driftKey d == k)
      = st.collected.filter (fun d => driftKey d == k))
    ∧ (k ∈ (xs.foldl (stepInstance cfg) st).analyzed ↔
        k ∈ st.analyzed) := by
  induction xs generalizing st with
  | nil => exact ⟨rfl, Iff.rfl⟩
  | cons x tl ih =>
    rw [List.foldl_cons]
    have hx : instanceKey x ≠ k := hxs x (List.mem_cons_self _ _)
    have htl : ∀ y ∈ tl, instanceKey y ≠ k :=
      fun y hy => hxs y (List.mem_cons_of_mem _ hy)
    by_cases hmem : instanceKey x ∈ st.analyzed
    · rw [stepInstance_skip hmem]
      exact ih st htl
    · rw [stepInstance_fresh hmem]
      obtain ⟨ih1, ih2⟩ := ih _ htl
      refine ⟨?_, ?_⟩
      · rw [ih1]
        simp [List.filter_append, driftKey_analyzeInstance, hx]
      · rw [ih2]
        simp only [List.mem_append, List.mem_singleton]
        constructor
        · rintro (h | h)
          · exact h
          · exact absurd h.symm hx
        · exact Or.inl


theorem foldl_step_already (cfg : Option DatabaseConfig)
    (xs : List DatabaseInstance) (st : MultiBaselineState) (k : String)
    (hk : k ∈ st.analyzed) :
    ((xs.foldl (stepInstance cfg) st).collected.filter
        (fun d => driftKey d == k)
      = st.collected.filter (fun d => driftKey d == k))
    ∧ k ∈ (xs.foldl (stepInstance cfg) st).analyzed := by
  induction xs generalizing st with
  | nil => exact ⟨rfl, hk⟩
  | cons x tl ih =>
    rw [List.foldl_cons]
    by_cases hmem : instanceKey x ∈ st.analyzed
    · rw [stepInstance_skip hmem]
      exact ih st hk
    · have hxk : instanceKey x ≠ k := fun he => hmem (he ▸ hk)
      rw [stepInstance_fresh hmem]
      obtain ⟨ih1, ih2⟩ := ih
        ⟨st.analyzed ++ [instanceKey x],
          st.collected ++ [analyzeInstance x cfg],
          st.drifted
            + (if (analyzeInstance x cfg).drifts.isEmpty then 0 else 1)⟩
        (List.mem_append_left _ hk)
      refine ⟨?_, ih2⟩
      rw [ih1]
      simp [List.filter_append, driftKey_analyzeInstance, hxk]

theorem foldl_step_process (cfg : Option DatabaseConfig)
    (xs : List DatabaseInstance) (st : MultiBaselineState)
    (i0 : DatabaseInstance) (hnodup : (xs.map instanceKey).Nodup)
    (hi : i0 ∈ xs) (hfresh : instanceKey i0 ∉ st.analyzed) :
    ((xs.foldl (stepInstance cfg) st).collected.filter
        (fun d => driftKey d == instanceKey i0)
      = st.collected.filter (fun d => driftKey d == instanceKey i0)
        ++ [analyzeInstance i0 cfg])
    ∧ instanceKey i0 ∈ (xs.foldl (stepInstance cfg) st).analyzed := by
  induction xs generalizing st with
  | nil => simp at hi
  | cons x tl ih =>
    rw [List.foldl_cons]
    rcases List.mem_cons.mp hi with rfl | hi_tl
    · rw [stepInstance_fresh hfresh]
      have hno : ∀ y ∈ tl, instanceKey y ≠ instanceKey i0 := by
        intro y hy he
        exact (List.nodup_cons.mp hnodup).1
          (he ▸ List.mem_map_of_mem instanceKey hy)
      obtain ⟨f1, f2⟩ := foldl_step_avoid cfg tl
        ⟨st.analyzed ++ [instanceKey i0],
          st.collected ++ [analyzeInstance i0 cfg],
          st.drifted
            + (if (analyzeInstance i0 cfg).drifts.isEmpty then 0 else 1)⟩
        (instanceKey i0) hno
      refine ⟨?_, ?_⟩
      · rw [f1]
        simp [List.filter_append, driftKey_analyzeInstance]
      · rw [f2]
        simp
    · have hxk : instanceKey x ≠ instanceKey i0 := by
        intro he
        exact (List.nodup_cons.mp hnodup).1
          (he ▸ List.mem_map_of_mem instanceKey hi_tl)
      have hnodup_tl : (tl.map instanceKey).Nodup :=
        (List.nodup_cons.mp hnodup).2
      by_cases hmem : instanceKey x ∈ st.analyzed
      · rw [stepInstance_skip hmem]
        exact ih st hnodup_tl hi_tl hfresh
      · rw [stepInstance_fresh hmem]
        have hfresh1 : instanceKey i0 ∉
            st.analyzed ++ [instanceKey x] := by
          simp only [List.mem_append, List.mem_singleton]
          rintro (h | h)
          · exact hfresh h
          · exact hxk h.symm
        obtain ⟨g1, g2⟩ := ih
          ⟨st.analyzed ++ [instanceKey x],
            st.collected ++ [analyzeInstance x cfg],
            st.drifted
              + (if (analyzeInstance x cfg).drifts.isEmpty then 0 else 1)⟩
          hnodup_tl hi_tl hfresh1
        refine ⟨?_, g2⟩
        rw [g1]
        simp [List.filter_append, driftKey_analyzeInstance, hxk]

theorem mem_filteredInstances {allInstances : List DatabaseInstance}
    {b : SQLBaseline} {i : DatabaseInstance} :
    i ∈ filteredInstances allInstances b ↔
      (i ∈ allInstances ∧ baselineApplies b i = true) := by
  unfold filteredInstances baselineApplies filterInstancesByLabels
  rcases hfl : b.filterLabels with _ | ⟨kv, rest⟩
  · simp
  · simp [List.mem_filter]

theorem filteredInstances_sublist (allInstances : List DatabaseInstance)
    (b : SQLBaseline) :
    (filteredInstances allInstances b).Sublist allInstances := by
  unfold filteredInstances filterInstancesByLabels
  split
  · exact List.filter_sublist _
  · exact List.Sublist.refl _

theorem runBaseline_eq (allInstances : List DatabaseInstance)
    (st : MultiBaselineState) (b : SQLBaseline) :
    runBaseline allInstances st b
      = (filteredInstances allInstances b).foldl (stepInstance b.config)
          st := rfl

theorem foldl_baseline_already (allInstances : List DatabaseInstance)
    (bs : List SQLBaseline) (st : MultiBaselineState) (k : String)
    (hk : k ∈ st.analyzed) :
    ((bs.foldl (runBaseline allInstances) st).collected.filter
        (fun d => driftKey d == k)
      = st.collected.filter (fun d => driftKey d == k))
    ∧ k ∈ (bs.foldl (runBaseline allInstances) st).analyzed := by
  induction bs generalizing st with
  | nil => exact ⟨rfl, hk⟩
  | cons b tl ih =>
    rw [List.foldl_cons, runBaseline_eq]
    obtain ⟨f1, f2⟩ := foldl_step_already b.config
      (filteredInstances allInstances b) st k hk
    obtain ⟨g1, g2⟩ := ih _ f2
    exact ⟨by rw [g1, f1], g2⟩

theorem foldl_baseline_first_match (allInstances : List DatabaseInstance)
    (bs : List SQLBaseline) (st : MultiBaselineState)
    (i0 : DatabaseInstance)
    (hnodup : (allInstances.map instanceKey).Nodup) (hi : i0 ∈ allInstances)
    (hfresh : instanceKey i0 ∉ st.analyzed)
    (hcol : st.collected.filter (fun d => driftKey d == instanceKey i0)
      = []) :
    (bs.foldl (runBaseline allInstances) st).collected.filter
        (fun d => driftKey d == instanceKey i0)
      = (match bs.find? (fun b => baselineApplies b i0) with
        | some b => [analyzeInstance i0 b.config]
        | none => []) := by
  induction bs generalizing st with
  | nil => simpa using hcol
  | cons b tl ih =>
    rw [List.foldl_cons, runBaseline_eq]
    by_cases happ : baselineApplies b i0 = true
    · have hifilt : i0 ∈ filteredInstances allInstances b :=
        mem_filteredInstances.mpr ⟨hi, happ⟩
      have hfiltnodup : ((filteredInstances allInstances b).map
          instanceKey).Nodup :=
        ((filteredInstances_sublist allInstances b).map instanceKey).nodup
          hnodup
      obtain ⟨f1, f2⟩ := foldl_step_process b.config
        (filteredInstances allInstances b) st i0 hfiltnodup hifilt hfresh
      obtain ⟨g1, -⟩ := foldl_baseline_already allInstances tl _
        (instanceKey i0) f2
      have hfind : List.find? (fun x => baselineApplies x i0) (b :: tl)
          = some b := List.find?_cons_of_pos tl happ
      rw [g1, f1, hcol, hfind]
      simp
    · have havoid : ∀ y ∈ filteredInstances allInstances b,
          instanceKey y ≠ instanceKey i0 := by
        intro y hy he
        have hymem := (mem_filteredInstances.mp hy).1
        have : y = i0 :=
          List.inj_on_of_nodup_map hnodup hymem hi he
        subst this
        exact happ (mem_filteredInstances.mp hy).2
      obtain ⟨f1, f2⟩ := foldl_step_avoid b.config
        (filteredInstances allInstances b) st (instanceKey i0) havoid
      have hfind : List.find? (fun x => baselineApplies x i0) (b :: tl)
          = List.find? (fun x => baselineApplies x i0) tl :=
        List.find?_cons_of_neg tl happ
      rw [hfind]
      exact ih _ (fun hin => hfresh (f2.mp hin)) (by rw [f1]; exact hcol)

/-! ## C3: first matching baseline wins, no double evaluation -/

/-- C3: over resources with pairwise-distinct project/name keys, the
multi-baseline analysis evaluates each resource against at most one
baseline: the report holds exactly one entry for a resource exactly when
some baseline applies to it (empty filter or matching labels), that entry is
the evaluation against the first such baseline in list order, and a resource
already evaluated under an earlier baseline is skipped by every later one
(no entry for a later baseline exists). -/
theorem multi_baseline_first_match_wins
    (allInstances : List DatabaseInstance) (baselines : List SQLBaseline)
    (inst : DatabaseInstance)
    (hnodup : (allInstances.map instanceKey).Nodup)
    (hmem : inst ∈ allInstances) :
    (analyzeMultipleBaselines allInstances baselines).instances.filter
        (fun d => driftKey d == instanceKey inst)
      = (match baselines.find? (fun b => baselineApplies b inst) with
        | some b => [analyzeInstance inst b.config]
        | none => []) := by
  exact foldl_baseline_first_match allInstances baselines ⟨[], [], 0⟩ inst
    hnodup hmem (by simp) rfl

/-- C3 witness: the spec scenario — first baseline filters `role=vault`,
second is filterless; the `role=vault` resource gets exactly one entry,
evaluated against the first baseline. -/
theorem multi_baseline_first_match_wins_witness :
    (analyzeMultipleBaselines
        [⟨"p", "vault-db", "RUNNABLE", "r",
          ⟨"", "", [], none, 0, "", false, [], []⟩, none,
          some [("role", "vault")], []⟩]
        [⟨"vault", [("role", "vault")], none⟩,
          ⟨"default", [], none⟩]).instances.filter
        (fun d => driftKey d == instanceKey
          ⟨"p", "vault-db", "RUNNABLE", "r",
            ⟨"", "", [], none, 0, "", false, [], []⟩, none,
            some [("role", "vault")], []⟩)
      = (match ([⟨"vault", [("role", "vault")], none⟩,
            ⟨"default", [], none⟩] : List SQLBaseline).find?
            (fun b => baselineApplies b
              ⟨"p", "vault-db", "RUNNABLE", "r",
                ⟨"", "", [], none, 0, "", false, [], []⟩, none,
                some [("role", "vault")], []⟩) with
        | some b => [analyzeInstance
            ⟨"p", "vault-db", "RUNNABLE", "r",
              ⟨"", "", [], none, 0, "", false, [], []⟩, none,
              some [("role", "vault")], []⟩ b.config]
        | none => []) :=
  multi_baseline_first_match_wins
    [⟨"p", "vault-db", "RUNNABLE", "r",
      ⟨"", "", [], none, 0, "", false, [], []⟩, none,
      some [("role", "vault")], []⟩]
    [⟨"vault", [("role", "vault")], none⟩, ⟨"default", [], none⟩]
    ⟨"p", "vault-db", "RUNNABLE", "r",
      ⟨"", "", [], none, 0, "", false, [], []⟩, none,
      some [("role", "vault")], []⟩
    (by decide) (by decide)

/-! ## C10: report count invariants -/

theorem foldl_step_state_inv (cfg : Option DatabaseConfig)
    (P : InstanceDrift → Prop) (xs : List DatabaseInstance)
    (st : MultiBaselineState) (K : List String)
    (hxs : ∀ x ∈ xs, instanceKey x ∈ K)
    (hstep : ∀ x ∈ xs, P (analyzeInstance x cfg))
    (h1 : st.collected.map driftKey = st.analyzed)
    (h2 : st.analyzed.Nodup)
    (h3 : ∀ k ∈ st.analyzed, k ∈ K)
    (h4 : st.drifted = st.collected.countP (fun d => !d.drifts.isEmpty))
    (h5 : ∀ d ∈ st.collected, P d) :
    (xs.foldl (stepInstance cfg) st).collected.map driftKey
        = (xs.foldl (stepInstance cfg) st).analyzed
    ∧ (xs.foldl (stepInstance cfg) st).analyzed.Nodup
    ∧ (∀ k ∈ (xs.foldl (stepInstance cfg) st).analyzed, k ∈ K)
    ∧ (xs.foldl (stepInstance cfg) st).drifted
        = (xs.foldl (stepInstance cfg) st).collected.countP
            (fun d => !d.drifts.isEmpty)
    ∧ (∀ d ∈ (xs.foldl (stepInstance cfg) st).collected, P d) := by
  induction xs generalizing st with
  | nil => exact ⟨h1, h2, h3, h4, h5⟩
  | cons x tl ih =>
    rw [List.foldl_cons]
    have hxsK : ∀ y ∈ tl, instanceKey y ∈ K :=
      fun y hy => hxs y (List.mem_cons_of_mem _ hy)
    have hstepTl : ∀ y ∈ tl, P (analyzeInstance y cfg) :=
      fun y hy => hstep y (List.mem_cons_of_mem _ hy)
    by_cases hmem : instanceKey x ∈ st.analyzed
    · rw [stepInstance_skip hmem]
      exact ih st hxsK hstepTl h1 h2 h3 h4 h5
    · rw [stepInstance_fresh hmem]
      refine ih _ hxsK hstepTl ?_ ?_ ?_ ?_ ?_
      · simp [h1, driftKey_analyzeInstance]
      · simp [List.nodup_append, h2, hmem]
      · intro k hk
        rcases List.mem_append.mp hk with hk | hk
        · exact h3 k hk
        · rw [List.mem_singleton.mp hk]
          exact hxs x (List.mem_cons_self _ _)
      · rw [List.countP_append, ← h4]
        cases he : (analyzeInstance x cfg).drifts.isEmpty <;> simp [he]
      · intro d hd
        rcases List.mem_append.mp hd with hd | hd
        · exact h5 d hd
        · rw [List.mem_singleton.mp hd]
          exact hstep x (List.mem_cons_self _ _)

theorem foldl_baseline_state_inv (allInstances : List DatabaseInstance)
    (B : List SQLBaseline) (bs : List SQLBaseline)
    (st : MultiBaselineState)
    (hbs : ∀ b ∈ bs, b ∈ B)
    (h1 : st.collected.map driftKey = st.analyzed)
    (h2 : st.analyzed.Nodup)
    (h3 : ∀ k ∈ st.analyzed, k ∈ allInstances.map instanceKey)
    (h4 : st.drifted = st.collected.countP (fun d => !d.drifts.isEmpty))
    (h5 : ∀ d ∈ st.collected, ∃ i, i ∈ allInstances ∧ ∃ b, b ∈ B ∧
      baselineApplies b i = true ∧ d = analyzeInstance i b.config) :
    (bs.foldl (runBaseline allInstances) st).collected.map driftKey
        = (bs.foldl (runBaseline allInstances) st).analyzed
    ∧ (bs.foldl (runBaseline allInstances) st).analyzed.Nodup
    ∧ (∀ k ∈ (bs.foldl (runBaseline allInstances) st).analyzed,
        k ∈ allInstances.map instanceKey)
    ∧ (bs.foldl (runBaseline allInstances) st).drifted
        = (bs.foldl (runBaseline allInstances) st).collected.countP
            (fun d => !d.drifts.isEmpty)
    ∧ (∀ d ∈ (bs.foldl (runBaseline allInstances) st).collected,
        ∃ i, i ∈ allInstances ∧ ∃ b, b ∈ B ∧
          baselineApplies b i = true ∧ d = analyzeInstance i b.config) := by
  induction bs generalizing st with
  | nil => exact ⟨h1, h2, h3, h4, h5⟩
  | cons b tl ih =>
    rw [List.foldl_cons, runBaseline_eq]
    have hb : b ∈ B := hbs b (List.mem_cons_self _ _)
    have hbsTl : ∀ x ∈ tl, x ∈ B :=
      fun x hx => hbs x (List.mem_cons_of_mem _ hx)
    obtain ⟨g1, g2, g3, g4, g5⟩ := foldl_step_state_inv b.config
      (fun d => ∃ i, i ∈ allInstances ∧ ∃ b, b ∈ B ∧
        baselineApplies b i = true ∧ d = analyzeInstance i b.config)
      (filteredInstances allInstances b) st (allInstances.map instanceKey)
      (fun x hx => List.mem_map_of_mem instanceKey
        (mem_filteredInstances.mp hx).1)
      (fun x hx => ⟨x, (mem_filteredInstances.mp hx).1, b, hb,
        (mem_filteredInstances.mp hx).2, rfl⟩)
      h1 h2 h3 h4 h5
    exact ih _ hbsTl g1 g2 g3 g4 g5

/-- C10: in every multi-baseline report, `TotalInstances` is the number of
discovered resources, every listed entry stems from a resource some
baseline applied to (a resource matching no baseline is counted in the
total but gets no entry), `DriftedInstances` counts exactly the listed
entries with at least one drift, and therefore
`DriftedInstances ≤ |Instances| ≤ TotalInstances`. -/
theorem multi_baseline_report_invariants
    (allInstances : List DatabaseInstance) (baselines : List SQLBaseline) :
    (analyzeMultipleBaselines allInstances baselines).totalInstances
        = allInstances.length
    ∧ (∀ d ∈ (analyzeMultipleBaselines allInstances baselines).instances,
        ∃ i, i ∈ allInstances ∧ ∃ b, b ∈ baselines ∧
          baselineApplies b i = true ∧ d = analyzeInstance i b.config)
    ∧ (analyzeMultipleBaselines allInstances baselines).driftedInstances
        = (analyzeMultipleBaselines allInstances
            baselines).instances.countP (fun d => !d.drifts.isEmpty)
    ∧ (analyzeMultipleBaselines allInstances baselines).driftedInstances
        ≤ (analyzeMultipleBaselines allInstances
            baselines).instances.length
    ∧ (analyzeMultipleBaselines allInstances baselines).instances.length
        ≤ allInstances.length := by
  obtain ⟨g1, g2, g3, g4, g5⟩ := foldl_baseline_state_inv allInstances
    baselines baselines ⟨[], [], 0⟩ (fun b hb => hb) rfl List.nodup_nil
    (by intro k hk; simp at hk) rfl (by intro d hd; simp at hd)
  refine ⟨rfl, g5, g4, ?_, ?_⟩
  · calc (analyzeMultipleBaselines allInstances
          baselines).driftedInstances
        = (analyzeMultipleBaselines allInstances
            baselines).instances.countP (fun d => !d.drifts.isEmpty) := g4
      _ ≤ (analyzeMultipleBaselines allInstances
            baselines).instances.length := List.countP_le_length _
  · have hlen : (analyzeMultipleBaselines allInstances
        baselines).instances.length
        = (baselines.foldl (runBaseline allInstances)
            (⟨[], [], 0⟩ : MultiBaselineState)).analyzed.length := by
      show (baselines.foldl (runBaseline allInstances)
        (⟨[], [], 0⟩ : MultiBaselineState)).collected.length = _
      rw [← g1, List.length_map]
    rw [hlen]
    calc (baselines.foldl (runBaseline allInstances)
          (⟨[], [], 0⟩ : MultiBaselineState)).analyzed.length
        ≤ (allInstances.map instanceKey).length :=
          (g2.subperm g3).length_le
      _ = allInstances.length := List.length_map _ _

/-- C10 witness: the invariants evaluated over one discovered resource and
one filterless baseline. -/
theorem multi_baseline_report_invariants_witness :
    (analyzeMultipleBaselines
        [⟨"p", "db1", "RUNNABLE", "r",
          ⟨"", "", [], none, 0, "", false, [], []⟩, none, none, []⟩]
        [⟨"default", [], none⟩]).totalInstances = 1
    ∧ (∀ d ∈ (analyzeMultipleBaselines
        [⟨"p", "db1", "RUNNABLE", "r",
          ⟨"", "", [], none, 0, "", false, [], []⟩, none, none, []⟩]
        [⟨"default", [], none⟩]).instances,
        ∃ i, i ∈ [⟨"p", "db1", "RUNNABLE", "r",
          ⟨"", "", [], none, 0, "", false, [], []⟩, none, none, []⟩]
          ∧ ∃ b, b ∈ ([⟨"default", [], none⟩] : List SQLBaseline) ∧
          baselineApplies b i = true ∧ d = analyzeInstance i b.config)
    ∧ (analyzeMultipleBaselines
        [⟨"p", "db1", "RUNNABLE", "r",
          ⟨"", "", [], none, 0, "", false, [], []⟩, none, none, []⟩]
        [⟨"default", [], none⟩]).driftedInstances
      = (analyzeMultipleBaselines
        [⟨"p", "db1", "RUNNABLE", "r",
          ⟨"", "", [], none, 0, "", false, [], []⟩, none, none, []⟩]
        [⟨"default", [], none⟩]).instances.countP
          (fun d => !d.drifts.isEmpty)
    ∧ (analyzeMultipleBaselines
        [⟨"p", "db1", "RUNNABLE", "r",
          ⟨"", "", [], none, 0, "", false, [], []⟩, none, none, []⟩]
        [⟨"default", [], none⟩]).driftedInstances
      ≤ (analyzeMultipleBaselines
        [⟨"p", "db1", "RUNNABLE", "r",
          ⟨"", "", [], none, 0, "", false, [], []⟩, none, none, []⟩]
        [⟨"default", [], none⟩]).instances.length
    ∧ (analyzeMultipleBaselines
        [⟨"p", "db1", "RUNNABLE", "r",
          ⟨"", "", [], none, 0, "", false, [], []⟩, none, none, []⟩]
        [⟨"default", [], none⟩]).instances.length ≤ 1 :=
  multi_baseline_report_invariants
    [⟨"p", "db1", "RUNNABLE", "r",
      ⟨"", "", [], none, 0, "", false, [], []⟩, none, none, []⟩]
    [⟨"default", [], none⟩]

/-- C4 witness: the HasDrift invariant evaluated at a concrete schema and a
baseline expecting one table. -/
theorem validate_hasDrift_iff_findings_witness :
    ((ValidateSchemaAgainstBaseline ⟨"d", "o", [], [], [], [], [], [], []⟩
        (some { expectedTables := some 1 })).hasDrift = true ↔
      ((ValidateSchemaAgainstBaseline ⟨"d", "o", [], [], [], [], [], [], []⟩
          (some { expectedTables := some 1 })).countMismatches ≠ [] ∨
        (ValidateSchemaAgainstBaseline ⟨"d", "o", [], [], [], [], [], [], []⟩
          (some { expectedTables := some 1 })).missingObjects ≠ [] ∨
        (ValidateSchemaAgainstBaseline ⟨"d", "o", [], [], [], [], [], [], []⟩
          (some { expectedTables := some 1 })).forbiddenObjects ≠ [] ∨
        (ValidateSchemaAgainstBaseline ⟨"d", "o", [], [], [], [], [], [], []⟩
          (some { expectedTables := some 1 })).ownershipViolations ≠ []))
    ∧ ValidateSchemaAgainstBaseline ⟨"d", "o", [], [], [], [], [], [], []⟩
        none = ⟨false, [], [], [], []⟩ :=
  validate_hasDrift_iff_findings ⟨"d", "o", [], [], [], [], [], [], []⟩
    (some { expectedTables := some 1 })

/-- C8 witness: the matching semantics evaluated at an instance with a nil
label map against the empty filter — it passes — and the same instance
against a non-empty filter — it does not. -/
theorem filterInstances_mem_iff_witness :
    ((⟨"p", "db1", "RUNNABLE", "r",
        ⟨"", "", [], none, 0, "", false, [], []⟩, none, none, []⟩ :
        DatabaseInstance) ∈ filterInstancesByLabels
        [⟨"p", "db1", "RUNNABLE", "r",
          ⟨"", "", [], none, 0, "", false, [], []⟩, none, none, []⟩] [] ↔
      ((⟨"p", "db1", "RUNNABLE", "r",
          ⟨"", "", [], none, 0, "", false, [], []⟩, none, none, []⟩ :
          DatabaseInstance) ∈
        [⟨"p", "db1", "RUNNABLE", "r",
          ⟨"", "", [], none, 0, "", false, [], []⟩, none, none, []⟩]
        ∧ ∀ kv ∈ ([] : List (String × String)),
          labelLookup ⟨"p", "db1", "RUNNABLE", "r",
            ⟨"", "", [], none, 0, "", false, [], []⟩, none, none, []⟩ kv.1
            = some kv.2))
    ∧ ((⟨"p", "db1", "RUNNABLE", "r",
        ⟨"", "", [], none, 0, "", false, [], []⟩, none, none, []⟩ :
        DatabaseInstance) ∈ filterInstancesByLabels
        [⟨"p", "db1", "RUNNABLE", "r",
          ⟨"", "", [], none, 0, "", false, [], []⟩, none, none, []⟩]
        [("role", "vault")] ↔
      ((⟨"p", "db1", "RUNNABLE", "r",
          ⟨"", "", [], none, 0, "", false, [], []⟩, none, none, []⟩ :
          DatabaseInstance) ∈
        [⟨"p", "db1", "RUNNABLE", "r",
          ⟨"", "", [], none, 0, "", false, [], []⟩, none, none, []⟩]
        ∧ ∀ kv ∈ [("role", "vault")],
          labelLookup ⟨"p", "db1", "RUNNABLE", "r",
            ⟨"", "", [], none, 0, "", false, [], []⟩, none, none, []⟩ kv.1
            = some kv.2)) :=
  ⟨filterInstances_mem_iff
      [⟨"p", "db1", "RUNNABLE", "r",
        ⟨"", "", [], none, 0, "", false, [], []⟩, none, none, []⟩]
      ⟨"p", "db1", "RUNNABLE", "r",
        ⟨"", "", [], none, 0, "", false, [], []⟩, none, none, []⟩ [],
    filterInstances_mem_iff
      [⟨"p", "db1", "RUNNABLE", "r",
        ⟨"", "", [], none, 0, "", false, [], []⟩, none, none, []⟩]
      ⟨"p", "db1", "RUNNABLE", "r",
        ⟨"", "", [], none, 0, "", false, [], []⟩, none, none, []⟩
      [("role", "vault")]⟩

end DriftCli
